import Mathlib

/-!
Verification of the CITARION trading platform sources against its specification.

Numbers (JS `number`) are modelled as rationals `ℚ`; `Math.sqrt` is modelled as an
explicit function argument `sqrtA : ℚ → ℚ` where the source uses it, since the
properties proved here do not depend on its values.  Chart `Time` values and
JS `Date` timestamps are modelled as naturals.  JS `null`/`undefined` become
`Option`.  Where a JS truthiness test (`if (x)`) guards a number, the model tests
`x ≠ 0` on the `some` case.
-/

namespace Chart

/-- OHLCV candle of the indicator calculator (`Candle` in the source; the
`open` field is called `openPrice` here because `open` is a Lean keyword). -/
structure Candle where
  time : ℕ
  openPrice : ℚ
  high : ℚ
  low : ℚ
  close : ℚ
  volume : ℚ
deriving DecidableEq

/-- A `LineData | WhitespaceData` point: a whitespace point carries no value. -/
structure LinePoint where
  time : ℕ
  value : Option ℚ
deriving DecidableEq

/-- A `HistogramData | WhitespaceData` point. -/
structure HistPoint where
  time : ℕ
  value : Option ℚ
  color : Option String
deriving DecidableEq

/-- One named line of an `IndicatorResult`. -/
structure NamedLine where
  name : String
  data : List LinePoint
  color : String
deriving DecidableEq

/-- One named histogram of an `IndicatorResult`. -/
structure NamedHist where
  name : String
  data : List HistPoint
  color : String
deriving DecidableEq

/-- Model of `IndicatorResult` of the indicator calculator. -/
structure IndicatorResult where
  id : String
  overlay : Bool
  lines : List NamedLine
  histograms : List NamedHist
deriving DecidableEq

/-- The fields of the `inputs : Record<string, number | string | boolean>`
record that the calculators read (each via an `as number` cast).  Integer
inputs are naturals, matching the `int` input schemas. -/
structure Inputs where
  length : ℕ
  fastLength : ℕ
  slowLength : ℕ
  signalLength : ℕ
  mult : ℚ
deriving DecidableEq

/-- Model of `sma` helper: `result[i] = (Σ_{j<period} data[i-j]) / period` for
`i ≥ period - 1`, `null` before.  The `1 ≤ period` guard models that with
`period = 0` the JS code only produces `NaN` entries (division by zero),
which the data builders turn into whitespace exactly as `null` is. -/
def sma (data : List ℚ) (period : ℕ) : List (Option ℚ) :=
  (List.range data.length).map (fun i =>
    if 1 ≤ period ∧ period ≤ i + 1 then
      some ((((data.drop (i + 1 - period)).take period).sum) / (period : ℚ))
    else none)

/-- The running-EMA recursion of the `ema` helper:
`currentEma = (data[i] - prevEma) * multiplier + prevEma`. -/
def emaRec (multiplier prevEma : ℚ) : List ℚ → List ℚ
  | [] => []
  | x :: xs =>
    let currentEma := (x - prevEma) * multiplier + prevEma
    currentEma :: emaRec multiplier currentEma xs

/-- Model of `ema` helper: first EMA is the SMA of the first `period` values (at index
`period - 1`), then the smoothing recursion with `multiplier = 2/(period+1)`;
all `null` when fewer than `period` data points.  As in `sma`, the
`1 ≤ period` guard stands for the all-`NaN` (hence all-whitespace) JS
behaviour at `period = 0`. -/
def ema (data : List ℚ) (period : ℕ) : List (Option ℚ) :=
  if 1 ≤ period ∧ period ≤ data.length then
    let seed := (data.take period).sum / (period : ℚ)
    List.replicate (period - 1) (none : Option ℚ) ++
      some seed :: (emaRec (2 / ((period : ℚ) + 1)) seed (data.drop period)).map some
  else
    List.replicate data.length none

/-- Price changes `closes[i+1] - closes[i]` (the `changes` array of `rsi`). -/
def changes (closes : List ℚ) : List ℚ :=
  (closes.zip closes.tail).map (fun p => p.2 - p.1)

/-- The Wilder-smoothing loop of `rsi`: each step folds one change into the
average gain and loss and emits `100` when the average loss is zero, else
`100 - 100 / (1 + avgGain / avgLoss)`. -/
def rsiLoop (period avgGain avgLoss : ℚ) : List ℚ → List ℚ
  | [] => []
  | change :: rest =>
    let gain := if change > 0 then change else 0
    let loss := if change < 0 then -change else 0
    let g := (avgGain * (period - 1) + gain) / period
    let l := (avgLoss * (period - 1) + loss) / period
    let v := if l = 0 then (100 : ℚ) else 100 - 100 / (1 + g / l)
    v :: rsiLoop period g l rest

/-- Model of `rsi` helper: all `null` when `closes.length < period + 1`; otherwise the
first RSI (at index `period`) uses the simple averages of the first `period`
changes and the rest uses the smoothing loop. -/
def rsi (closes : List ℚ) (period : ℕ) : List (Option ℚ) :=
  if 1 ≤ period ∧ period + 1 ≤ closes.length then
    let chs := changes closes
    let avgGain := (((chs.take period).map (fun c => if c > 0 then c else 0)).sum) / (period : ℚ)
    let avgLoss := (((chs.take period).map (fun c => if c > 0 then 0 else -c)).sum) / (period : ℚ)
    let first := if avgLoss = 0 then (100 : ℚ) else 100 - 100 / (1 + avgGain / avgLoss)
    List.replicate period (none : Option ℚ) ++
      some first :: (rsiLoop (period : ℚ) avgGain avgLoss (chs.drop period)).map some
  else
    List.replicate closes.length none

/-- Model of `stdev` helper: population standard deviation over each window, with
`Math.sqrt` as the explicit `sqrtA`. -/
def stdev (sqrtA : ℚ → ℚ) (data : List ℚ) (period : ℕ) : List (Option ℚ) :=
  (List.range data.length).map (fun i =>
    if 1 ≤ period ∧ period ≤ i + 1 then
      let slice := (data.drop (i + 1 - period)).take period
      let mean := slice.sum / (period : ℚ)
      let variance := ((slice.map (fun v => (v - mean) ^ 2)).sum) / (period : ℚ)
      some (sqrtA variance)
    else none)

/-- True range of a candle given its predecessor. -/
def trValue (prev cur : Candle) : ℚ :=
  max (cur.high - cur.low) (max |cur.high - prev.close| |cur.low - prev.close|)

/-- The `trValues` array of `atr`: `high - low` for the first candle, the
true range for the rest. -/
def trList : List Candle → List ℚ
  | [] => []
  | c :: cs => (c.high - c.low) :: (((c :: cs).zip cs).map (fun p => trValue p.1 p.2))

/-- The smoothed-ATR recursion: `result[i] = (result[i-1]*(period-1) + tr)/period`. -/
def atrLoop (period prev : ℚ) : List ℚ → List ℚ
  | [] => []
  | tr :: rest =>
    let cur := (prev * (period - 1) + tr) / period
    cur :: atrLoop period cur rest

/-- Model of `atr` helper: seed at index `period - 1` with the SMA of the first
`period` true ranges, then the smoothing recursion. -/
def atr (candles : List Candle) (period : ℕ) : List (Option ℚ) :=
  let trValues := trList candles
  if 1 ≤ period ∧ period ≤ trValues.length then
    let seed := (trValues.take period).sum / (period : ℚ)
    List.replicate (period - 1) (none : Option ℚ) ++
      some seed :: (atrLoop (period : ℚ) seed (trValues.drop period)).map some
  else
    List.replicate candles.length none

/-- Model of `buildLineData`: one point per candle, in order; a data point when the
value is present, a whitespace point (time only) otherwise.  An out-of-range
read (`values[i]` undefined) also yields whitespace, as in the source, where
the `isNaN` test catches `undefined`. -/
def buildLineData (candles : List Candle) (values : List (Option ℚ)) : List LinePoint :=
  (List.range candles.length).map (fun i =>
    { time := ((candles.get? i).map Candle.time).getD 0
      value := (values.get? i).join })

/-- Model of `buildHistogramData`: as `buildLineData`, with `colorUp` on values `≥ 0`
and `colorDown` on negative values. -/
def buildHistogramData (candles : List Candle) (values : List (Option ℚ))
    (colorUp colorDown : String) : List HistPoint :=
  (List.range candles.length).map (fun i =>
    match (values.get? i).join with
    | some v =>
      { time := ((candles.get? i).map Candle.time).getD 0
        value := some v
        color := some (if v ≥ 0 then colorUp else colorDown) }
    | none =>
      { time := ((candles.get? i).map Candle.time).getD 0
        value := none
        color := none })

/-- Model of `calculateSMA`. -/
def calculateSMA (candles : List Candle) (inputs : Inputs) : IndicatorResult :=
  let length := inputs.length
  let closes := candles.map Candle.close
  let smaValues := sma closes length
  { id := "sma", overlay := true
    lines := [{ name := "sma", data := buildLineData candles smaValues, color := "#2962FF" }]
    histograms := [] }

/-- Model of `calculateEMA`. -/
def calculateEMA (candles : List Candle) (inputs : Inputs) : IndicatorResult :=
  let length := inputs.length
  let closes := candles.map Candle.close
  let emaValues := ema closes length
  { id := "ema", overlay := true
    lines := [{ name := "ema", data := buildLineData candles emaValues, color := "#00C853" }]
    histograms := [] }

/-- Model of `calculateEMACross`. -/
def calculateEMACross (candles : List Candle) (inputs : Inputs) : IndicatorResult :=
  let fastLength := inputs.fastLength
  let slowLength := inputs.slowLength
  let closes := candles.map Candle.close
  let fastEma := ema closes fastLength
  let slowEma := ema closes slowLength
  { id := "ema_cross", overlay := true
    lines := [
      { name := "fast", data := buildLineData candles fastEma, color := "#00C853" },
      { name := "slow", data := buildLineData candles slowEma, color := "#F6465D" }]
    histograms := [] }

/-- Model of `calculateRSI`. -/
def calculateRSI (candles : List Candle) (inputs : Inputs) : IndicatorResult :=
  let length := inputs.length
  let closes := candles.map Candle.close
  let rsiValues := rsi closes length
  { id := "rsi", overlay := false
    lines := [{ name := "rsi", data := buildLineData candles rsiValues, color := "#D500F9" }]
    histograms := [] }

/-- Model of `calculateMACD`.  NOTE, faithful to the source: the source assigns
`const slowLength = inputs.signalLength as number;`, so the slow EMA is
computed with the signal length and `inputs.slowLength` is never read. -/
def calculateMACD (candles : List Candle) (inputs : Inputs) : IndicatorResult :=
  let fastLength := inputs.fastLength
  let slowLength := inputs.signalLength
  let signalLength := inputs.signalLength
  let closes := candles.map Candle.close
  let fastEma := ema closes fastLength
  let slowEma := ema closes slowLength
  let macdLine : List (Option ℚ) := (List.range closes.length).map (fun i =>
    match (fastEma.get? i).join, (slowEma.get? i).join with
    | some f, some s => some (f - s)
    | _, _ => none)
  let macdValues := macdLine.filterMap id
  let signalEma := ema macdValues signalLength
  let signalLine : List (Option ℚ) := (List.range candles.length).map (fun i =>
    match (macdLine.get? i).join with
    | some _ => (signalEma.get? (((macdLine.take i).filterMap id).length)).join
    | none => none)
  let histogramValues : List (Option ℚ) := (List.range candles.length).map (fun i =>
    match (macdLine.get? i).join, (signalLine.get? i).join with
    | some m, some s => some (m - s)
    | _, _ => none)
  { id := "macd", overlay := false
    lines := [
      { name := "macd", data := buildLineData candles macdLine, color := "#2962FF" },
      { name := "signal", data := buildLineData candles signalLine, color := "#FF6D00" }]
    histograms := [{ name := "histogram"
                     data := buildHistogramData candles histogramValues "#26a69a" "#ef5350"
                     color := "#26a69a" }] }

/-- Model of `calculateBB`. -/
def calculateBB (sqrtA : ℚ → ℚ) (candles : List Candle) (inputs : Inputs) : IndicatorResult :=
  let length := inputs.length
  let mult := inputs.mult
  let closes := candles.map Candle.close
  let smaValues := sma closes length
  let stdevValues := stdev sqrtA closes length
  let upperValues : List (Option ℚ) := (List.range closes.length).map (fun i =>
    match (smaValues.get? i).join, (stdevValues.get? i).join with
    | some s, some d => some (s + d * mult)
    | _, _ => none)
  let lowerValues : List (Option ℚ) := (List.range closes.length).map (fun i =>
    match (smaValues.get? i).join, (stdevValues.get? i).join with
    | some s, some d => some (s - d * mult)
    | _, _ => none)
  { id := "bb", overlay := true
    lines := [
      { name := "upper", data := buildLineData candles upperValues, color := "#2962FF" },
      { name := "middle", data := buildLineData candles smaValues, color := "#FF6D00" },
      { name := "lower", data := buildLineData candles lowerValues, color := "#2962FF" }]
    histograms := [] }

/-- Model of `calculateATR`. -/
def calculateATR (candles : List Candle) (inputs : Inputs) : IndicatorResult :=
  let length := inputs.length
  let atrValues := atr candles length
  { id := "atr", overlay := false
    lines := [{ name := "atr", data := buildLineData candles atrValues, color := "#FF6D00" }]
    histograms := [] }

/-- Model of `calculateVolumeSMA`: the volume histogram always carries a value. -/
def calculateVolumeSMA (candles : List Candle) (inputs : Inputs) : IndicatorResult :=
  let length := inputs.length
  let volumes := candles.map Candle.volume
  let smaValues := sma volumes length
  let volumeData : List HistPoint :=
    candles.map (fun c => { time := c.time, value := some c.volume, color := some "#2962FF80" })
  { id := "vol_sma", overlay := false
    lines := [{ name := "volSMA", data := buildLineData candles smaValues, color := "#FF6D00" }]
    histograms := [{ name := "volume", data := volumeData, color := "#2962FF80" }] }

/-- The `indicatorCalculators` record, as a lookup from indicator id. -/
def indicatorCalculators (sqrtA : ℚ → ℚ) (id : String) :
    Option (List Candle → Inputs → IndicatorResult) :=
  if id = "sma" then some calculateSMA
  else if id = "ema" then some calculateEMA
  else if id = "ema_cross" then some calculateEMACross
  else if id = "rsi" then some calculateRSI
  else if id = "macd" then some calculateMACD
  else if id = "bb" then some (calculateBB sqrtA)
  else if id = "atr" then some calculateATR
  else if id = "vol_sma" then some calculateVolumeSMA
  else none

/-- The fields of a `BuiltInIndicator` record used by the calculator and the
claims (the Pine script, input schemas and output config are prose/metadata). -/
structure BuiltInIndicator where
  id : String
  name : String
  category : String
  overlay : Bool
deriving DecidableEq

/-- Model of `BUILTIN_INDICATORS`, projected to the modelled fields. -/
def BUILTIN_INDICATORS : List BuiltInIndicator :=
  [ { id := "sma", name := "Simple Moving Average", category := "moving_average", overlay := true },
    { id := "ema", name := "Exponential Moving Average", category := "moving_average", overlay := true },
    { id := "ema_cross", name := "EMA Cross", category := "moving_average", overlay := true },
    { id := "rsi", name := "Relative Strength Index", category := "oscillator", overlay := false },
    { id := "macd", name := "MACD", category := "oscillator", overlay := false },
    { id := "bb", name := "Bollinger Bands", category := "volatility", overlay := true },
    { id := "atr", name := "Average True Range", category := "volatility", overlay := false },
    { id := "vol_sma", name := "Volume SMA", category := "volume", overlay := false } ]

/-- Model of `calculateIndicator`: dispatch on the indicator id; `null` when there is
no calculator. -/
def calculateIndicator (sqrtA : ℚ → ℚ) (indicator : BuiltInIndicator)
    (candles : List Candle) (inputs : Inputs) : Option IndicatorResult :=
  match indicatorCalculators sqrtA indicator.id with
  | none => none
  | some calculator => some (calculator candles inputs)

/-- The MACD line as declared by the `macd` entry of `BUILTIN_INDICATORS`
(its `pineCode`: `macd = ta.ema(close, fastLength) - ta.ema(close, slowLength)`,
with a `slowLength` input of its own); used to compare `calculateMACD`
against the declaration it implements. -/
def macdLineDeclared (closes : List ℚ) (inputs : Inputs) : List (Option ℚ) :=
  let fastEma := ema closes inputs.fastLength
  let slowEma := ema closes inputs.slowLength
  (List.range closes.length).map (fun i =>
    match (fastEma.get? i).join, (slowEma.get? i).join with
    | some f, some s => some (f - s)
    | _, _ => none)

/-- Model of `calculateIndicator` with the ambient console made explicit: the only
effect in the source is the `console.warn` on a missing calculator, so a call
is modelled as mapping the console log to the new log plus the result. -/
def calculateIndicatorW (sqrtA : ℚ → ℚ) (console : List String) (indicator : BuiltInIndicator)
    (candles : List Candle) (inputs : Inputs) : List String × Option IndicatorResult :=
  match indicatorCalculators sqrtA indicator.id with
  | none =>
    (console ++ ["No calculator implemented for indicator: " ++ indicator.id], none)
  | some calculator => (console, some (calculator candles inputs))

end Chart

namespace Forecast

/-- The `AggregatedIndicators` fields read by `generateForecast`
(`volume_ratio` is called `volumeRatio` here). -/
structure AggregatedIndicators where
  roc_24h : ℚ
  atr_pct : ℚ
  trend_strength : ℚ
  volumeRatio : ℚ
  crypto_cnt : ℕ
  stock_cnt : ℕ
  gold_roc : ℚ
deriving DecidableEq

/-- Model of `Correlations`, of which `generateForecast` reads only `avg_corr`. -/
structure Correlations where
  avg_corr : ℚ
deriving DecidableEq

/-- The `Partial<VisionBotConfig>` fields read by `generateForecast`
(each defaulted with `??`). -/
structure VisionBotConfigP where
  trendThreshold : Option ℚ
  volatilityLow : Option ℚ
  volatilityHigh : Option ℚ
  correlationWeight : Option ℚ
deriving DecidableEq

/-- Model of `ForecastProbabilities`. -/
structure ForecastProbabilities where
  upward : ℚ
  downward : ℚ
  consolidation : ℚ
deriving DecidableEq

/-- Model of `Math.round`: round half toward positive infinity. -/
def jsRound (x : ℚ) : ℤ := ⌊x + 1 / 2⌋

/-- The momentum factor of `generateForecast` acting on the
`(up, down, cons)` triple. -/
def momentumStep (roc trendThreshold : ℚ) (t : ℚ × ℚ × ℚ) : ℚ × ℚ × ℚ :=
  if roc > trendThreshold then (t.1 + 20 / 100, t.2.1 - 10 / 100, t.2.2 - 10 / 100)
  else if roc < -trendThreshold then (t.1 - 10 / 100, t.2.1 + 20 / 100, t.2.2 - 10 / 100)
  else t

/-- The volatility factor of `generateForecast`. -/
def volatilityStep (vol volLow volHigh trendStrength : ℚ) (t : ℚ × ℚ × ℚ) : ℚ × ℚ × ℚ :=
  if vol < volLow then (t.1 - 10 / 100, t.2.1 - 10 / 100, t.2.2 + 20 / 100)
  else if vol > volHigh then
    (if trendStrength > 0 then (t.1 + 15 / 100, t.2.1, t.2.2 - 15 / 100)
     else (t.1, t.2.1 + 15 / 100, t.2.2 - 15 / 100))
  else t

/-- The volume-surge factor of `generateForecast`. -/
def volumeStep (volRatio trendStrength : ℚ) (t : ℚ × ℚ × ℚ) : ℚ × ℚ × ℚ :=
  if volRatio > 3 / 2 then
    (if trendStrength > 0 then (t.1 + 10 / 100, t.2.1, t.2.2 - 10 / 100)
     else (t.1, t.2.1 + 10 / 100, t.2.2 - 10 / 100))
  else t

/-- The cross-asset-correlation factor of `generateForecast`. -/
def correlationStep (avgCorr corrAdj goldRoc : ℚ) (t : ℚ × ℚ × ℚ) : ℚ × ℚ × ℚ :=
  if |avgCorr| < 1 / 2 then (t.1 - corrAdj / 2, t.2.1 - corrAdj / 2, t.2.2 + corrAdj)
  else if goldRoc > 0 ∧ avgCorr > 0 then (t.1 + corrAdj / 2, t.2.1, t.2.2)
  else if goldRoc < 0 ∧ avgCorr > 0 then (t.1, t.2.1 + corrAdj / 2, t.2.2)
  else t

/-- The `(up, down, cons)` triple of `generateForecast` just before the
normalization step: the equal start `1/3` each, then the momentum,
volatility, volume-surge and cross-asset-correlation adjustments, in
source order. -/
def generateForecastPre (indicators : AggregatedIndicators) (correlations : Correlations)
    (config : VisionBotConfigP) : ℚ × ℚ × ℚ :=
  let trendThreshold := config.trendThreshold.getD (2 / 100)
  let volLow := config.volatilityLow.getD (1 / 100)
  let volHigh := config.volatilityHigh.getD (5 / 100)
  let corrWeight := config.correlationWeight.getD (30 / 100)
  correlationStep correlations.avg_corr (corrWeight * |correlations.avg_corr|)
    indicators.gold_roc
    (volumeStep indicators.volumeRatio indicators.trend_strength
      (volatilityStep indicators.atr_pct volLow volHigh indicators.trend_strength
        (momentumStep indicators.roc_24h trendThreshold (1 / 3, 1 / 3, 1 / 3))))

/-- Model of `generateForecast`: normalize when the total is positive, then round each
probability to 4 decimal places. -/
def generateForecast (indicators : AggregatedIndicators) (correlations : Correlations)
    (config : VisionBotConfigP) : ForecastProbabilities :=
  let t := generateForecastPre indicators correlations config
  let total := t.1 + t.2.1 + t.2.2
  let tn := if total > 0 then (t.1 / total, t.2.1 / total, t.2.2 / total) else t
  { upward := (jsRound (tn.1 * 10000) : ℚ) / 10000
    downward := (jsRound (tn.2.1 * 10000) : ℚ) / 10000
    consolidation := (jsRound (tn.2.2 * 10000) : ℚ) / 10000 }

/-- The pre-normalization total of the three branch weights. -/
def preTotal (indicators : AggregatedIndicators) (correlations : Correlations)
    (config : VisionBotConfigP) : ℚ :=
  let t := generateForecastPre indicators correlations config
  t.1 + t.2.1 + t.2.2

end Forecast

namespace SM

/-- A parameter value of a `Record<string, number | boolean | string>`. -/
inductive PValue where
  | num (q : ℚ)
  | bool (b : Bool)
  | str (s : String)
deriving DecidableEq

/-- JS truthiness of a parameter value (`NaN` is not representable in `ℚ`). -/
def pTruthy : PValue → Bool
  | .num q => q != 0
  | .bool b => b
  | .str s => s != ""

/-- JS `x || d` for an optional parameter value. -/
def jsOr (v : Option PValue) (d : PValue) : PValue :=
  match v with
  | some x => if pTruthy x then x else d
  | none => d

/-- A strategy-parameters record, as an association list. -/
def Params := List (String × PValue)

/-- The payload of a `populateIndicators` result.  Its shape is never inspected by the
manager, which only stores or discards it; an association list stands in. -/
def Ind := List (String × ℚ)

/-- The empty `indicators: {}` record of the error paths. -/
def emptyInd : Ind := []

/-- The `StrategyConfig` fields the manager reads. -/
structure StrategyConfig where
  id : String
  minCandlesRequired : ℕ
  defaultTimeframe : String
deriving DecidableEq

/-- The `StrategyState` fields the manager reads. -/
structure StrategyState where
  parameters : List (String × PValue)

/-- A `StrategySignal`, of which the manager reads and writes only `symbol`
and the engine reads `type`. -/
structure Signal where
  type : String
  symbol : String
deriving DecidableEq

/-- The position snapshot passed to `checkExit`. -/
structure PositionSnapshot where
  direction : String
  entryPrice : ℚ
  currentPrice : ℚ
  size : ℚ
  openTime : ℕ

/-- An injected `IStrategy` over an abstract internal-state type `σ`.  A
method that may throw returns `Except String` carrying the thrown error
message; `init` models the initializer method, which mutates the internal state. -/
structure IStrategy (σ : Type) where
  config : StrategyConfig
  state : σ
  getState : σ → StrategyState
  init : σ → Option Params → σ
  populateIndicators : σ → List Chart.Candle → Except String Ind
  populateEntrySignal : σ → List Chart.Candle → Ind → ℚ → Except String (Option Signal)
  populateExitSignal : σ → List Chart.Candle → Ind → PositionSnapshot → Except String (Option Signal)

/-- A `RunningStrategy` entry; the strategy object reference is modelled by
its registry key. -/
structure RunningStrategy where
  id : String
  strategyId : String
  symbol : String
  timeframe : String
  status : String
  lastUpdate : ℕ
deriving DecidableEq

/-- The mutable state of a `StrategyManager`. -/
structure ManagerState (σ : Type) where
  strategies : List (String × IStrategy σ)
  runningStrategies : List (String × RunningStrategy)
  candleCache : List (String × List Chart.Candle)

/-- Model of `Map.set`: replace the binding of a key, or append it. -/
def mapSet {α : Type} (m : List (String × α)) (k : String) (v : α) : List (String × α) :=
  if (m.lookup k).isSome then m.map (fun p => if p.1 = k then (k, v) else p) else m ++ [(k, v)]

/-- The result record of `validateStrategyParameters` (that function lives in
`strategy/types.ts`; `start` only consumes its result, so it is a parameter
of the model). -/
structure Validation where
  valid : Bool
  errors : List String

/-- The `{ success, error? }` result of `StrategyManager.start`. -/
structure StartResult where
  success : Bool
  error : Option String
deriving DecidableEq

/-- Model of `StrategyManager.start`: look up the strategy, validate the parameters
when given, then run the strategy initializer and record the running entry. -/
def start {σ : Type} (validate : StrategyConfig → Params → Validation)
    (m : ManagerState σ) (strategyId symbol timeframe : String)
    (parameters : Option Params) (now : ℕ) : StartResult × ManagerState σ :=
  match m.strategies.lookup strategyId with
  | none => ({ success := false, error := some ("Strategy " ++ strategyId ++ " not found") }, m)
  | some strategy =>
    let config := strategy.config
    let validationFailure : Option String :=
      match parameters with
      | some ps =>
        let validation := validate config ps
        if validation.valid then none else some (String.intercalate "; " validation.errors)
      | none => none
    match validationFailure with
    | some err => ({ success := false, error := some err }, m)
    | none =>
      let strategy' := { strategy with state := strategy.init strategy.state parameters }
      let runningId := strategyId ++ "_" ++ symbol ++ "_" ++ timeframe
      let running : RunningStrategy :=
        { id := runningId, strategyId := strategyId, symbol := symbol, timeframe := timeframe
          status := "IDLE", lastUpdate := now }
      ({ success := true, error := none },
       { m with strategies := mapSet m.strategies strategyId strategy'
                runningStrategies := mapSet m.runningStrategies runningId running })

/-- The `StrategyAnalysisResult` record.  `errors` is the optional `errors?`
field, present only on the failure paths. -/
structure AnalysisResult where
  strategyId : String
  symbol : String
  timeframe : PValue
  timestamp : ℕ
  currentPrice : ℚ
  indicators : Ind
  signal : Option Signal
  errors : Option (List String)

/-- Model of `candles[candles.length - 1]?.close || 0`. -/
def lastCloseOr0 (candles : List Chart.Candle) : ℚ :=
  match candles.getLast? with
  | some c => c.close
  | none => 0

/-- The message of the `TypeError` thrown (and then caught) when
`candles[candles.length - 1].close` is read on an empty list; the exact
wording is runtime-specific and never observed by the claims. -/
def emptyCandlesMsg : String := "Cannot read properties of undefined"

/-- Model of `StrategyManager.analyze`: unknown strategy and insufficient candles give
error results; the indicator and entry-signal calls run inside `try` so a
thrown error becomes a `signal: null` result recording the message. -/
def analyze {σ : Type} (m : ManagerState σ) (strategyId symbol : String)
    (candles : List Chart.Candle) (now : ℕ) : AnalysisResult :=
  match m.strategies.lookup strategyId with
  | none =>
    { strategyId := strategyId, symbol := symbol, timeframe := .str "1h", timestamp := now
      currentPrice := 0, indicators := emptyInd, signal := none
      errors := some ["Strategy " ++ strategyId ++ " not found"] }
  | some strategy =>
    let config := strategy.config
    let state := strategy.getState strategy.state
    if candles.length < config.minCandlesRequired then
      { strategyId := strategyId, symbol := symbol
        timeframe := jsOr (state.parameters.lookup "timeframe") (.str config.defaultTimeframe)
        timestamp := now, currentPrice := lastCloseOr0 candles, indicators := emptyInd
        signal := none
        errors := some ["Insufficient candles: " ++ toString candles.length ++ " < " ++
          toString config.minCandlesRequired] }
    else
      match strategy.populateIndicators strategy.state candles with
      | .error e =>
        { strategyId := strategyId, symbol := symbol, timeframe := .str config.defaultTimeframe
          timestamp := now, currentPrice := lastCloseOr0 candles, indicators := emptyInd
          signal := none, errors := some [e] }
      | .ok indicators =>
        match candles.getLast? with
        | none =>
          { strategyId := strategyId, symbol := symbol
            timeframe := .str config.defaultTimeframe, timestamp := now
            currentPrice := lastCloseOr0 candles, indicators := emptyInd
            signal := none, errors := some [emptyCandlesMsg] }
        | some lastCandle =>
          let currentPrice := lastCandle.close
          match strategy.populateEntrySignal strategy.state candles indicators currentPrice with
          | .error e =>
            { strategyId := strategyId, symbol := symbol
              timeframe := .str config.defaultTimeframe, timestamp := now
              currentPrice := lastCloseOr0 candles, indicators := emptyInd
              signal := none, errors := some [e] }
          | .ok signal =>
            let signal := signal.map (fun s => { s with symbol := symbol })
            { strategyId := strategyId, symbol := symbol
              timeframe := jsOr (state.parameters.lookup "timeframe")
                (.str config.defaultTimeframe)
              timestamp := now, currentPrice := currentPrice, indicators := indicators
              signal := signal, errors := none }

/-- Model of `StrategyManager.checkExit`: unknown strategy gives `null`; the indicator
and exit-signal calls run inside `try` and any thrown error gives `null`. -/
def checkExit {σ : Type} (m : ManagerState σ) (strategyId : String)
    (candles : List Chart.Candle) (position : PositionSnapshot) : Option Signal :=
  match m.strategies.lookup strategyId with
  | none => none
  | some strategy =>
    match strategy.populateIndicators strategy.state candles with
    | .error _ => none
    | .ok indicators =>
      match strategy.populateExitSignal strategy.state candles indicators position with
      | .error _ => none
      | .ok s => s

/-- The module-level singleton cell behind `getStrategyManager`.  Object
identity is modelled by an allocation counter: the cell holds the id of the
allocated `StrategyManager`, if any. -/
structure SingletonState where
  strategyManagerInstance : Option ℕ
  nextInstanceId : ℕ
deriving DecidableEq

/-- Model of `getStrategyManager`: return the cached instance, creating it on first
call. -/
def getStrategyManager (s : SingletonState) : ℕ × SingletonState :=
  match s.strategyManagerInstance with
  | some inst => (inst, s)
  | none =>
    (s.nextInstanceId,
     { strategyManagerInstance := some s.nextInstanceId, nextInstanceId := s.nextInstanceId + 1 })

end SM

namespace Paper

/-- Position direction. -/
inductive Direction where
  | LONG
  | SHORT
deriving DecidableEq

/-- Position status. -/
inductive PosStatus where
  | PENDING
  | OPEN
  | CLOSING
  | CLOSED
  | LIQUIDATED
deriving DecidableEq

/-- Account status. -/
inductive AccStatus where
  | IDLE
  | RUNNING
  | PAUSED
  | STOPPED
deriving DecidableEq

/-- Exit / close reason.  The `PARTIAL` member of the source union is never
produced by the engine and is omitted. -/
inductive ExitReason where
  | TP
  | SL
  | SIGNAL
  | MANUAL
  | LIQUIDATION
  | MAX_DRAWDOWN
  | TRAILING_STOP
deriving DecidableEq

/-- Model of `PaperTradeEntry`. -/
structure TradeEntry where
  index : ℕ
  price : ℚ
  size : ℚ
  fee : ℚ
  timestamp : ℕ
  orderType : String
deriving DecidableEq

/-- Model of `PaperTradeExit`. -/
structure TradeExit where
  index : ℕ
  price : ℚ
  size : ℚ
  fee : ℚ
  pnl : ℚ
  reason : ExitReason
  timestamp : ℕ
  tpIndex : Option ℕ
deriving DecidableEq

/-- Model of `PaperTPTarget`. -/
structure TPTarget where
  index : ℕ
  price : ℚ
  closePercent : ℚ
  filled : Bool
  filledAt : Option ℕ
deriving DecidableEq

/-- The trailing-stop state stored in `tacticsState.trailingState` (fields the
engine reads and writes). -/
structure TrailingState where
  activated : Bool
  activationProfit : Option ℚ
  percentValue : Option ℚ
  highestPrice : Option ℚ
  lowestPrice : Option ℚ
  currentStopPrice : Option ℚ
deriving DecidableEq

/-- The `TacticsExecutionState` fields the engine reads after creation
(`tacticsSetId` for trade records, `trailingState` for the trailing stop);
the write-only bookkeeping fields are omitted. -/
structure TacticsState where
  tacticsSetId : String
  trailingState : Option TrailingState
deriving DecidableEq

/-- Model of `PaperPosition`. -/
structure Position where
  id : String
  symbol : String
  direction : Direction
  status : PosStatus
  avgEntryPrice : ℚ
  entries : List TradeEntry
  totalSize : ℚ
  openedAt : ℕ
  avgExitPrice : Option ℚ
  exits : List TradeExit
  closedAt : Option ℕ
  closeReason : Option ExitReason
  currentPrice : ℚ
  stopLoss : Option ℚ
  takeProfitTargets : List TPTarget
  unrealizedPnl : ℚ
  unrealizedPnlPercent : ℚ
  realizedPnl : ℚ
  totalFees : ℚ
  leverage : ℚ
  marginMode : String
  margin : ℚ
  liquidationPrice : Option ℚ
  tacticsState : TacticsState
deriving DecidableEq

/-- The `PaperTradingConfig` fields the tick-update path reads. -/
structure Config where
  id : String
  name : String
  initialBalance : ℚ
  feePercent : ℚ
  maxDrawdown : ℚ
  maxOpenPositions : ℕ
  maxLeverage : ℚ
  maxRiskPerTrade : ℚ
  autoTrading : Bool
deriving DecidableEq

/-- Model of `PaperTrade`. -/
structure Trade where
  id : String
  positionId : String
  symbol : String
  direction : Direction
  avgEntryPrice : ℚ
  totalSize : ℚ
  openedAt : ℕ
  avgExitPrice : ℚ
  closedAt : ℕ
  closeReason : ExitReason
  pnl : ℚ
  pnlPercent : ℚ
  fees : ℚ
  netPnl : ℚ
  durationMinutes : ℚ
  tacticsSetId : String
deriving DecidableEq

/-- Model of `PaperEquityPoint`. -/
structure EquityPoint where
  timestamp : ℕ
  balance : ℚ
  equity : ℚ
  availableMargin : ℚ
  unrealizedPnl : ℚ
  realizedPnl : ℚ
  dailyPnl : ℚ
  cumulativePnl : ℚ
  drawdown : ℚ
  drawdownPercent : ℚ
  maxDrawdown : ℚ
  maxDrawdownPercent : ℚ
  openPositions : ℕ
  tradesCount : ℕ
  winsCount : ℕ
  lossesCount : ℕ
  prices : List (String × ℚ)
deriving DecidableEq

/-- Model of `PaperAccount`.  The derived `metrics` record (`calculateFullMetrics`) is
not modelled: it reads the account but writes only the `metrics` field, which
no other engine code reads. -/
structure Account where
  id : String
  name : String
  config : Config
  initialBalance : ℚ
  balance : ℚ
  equity : ℚ
  availableMargin : ℚ
  maxEquity : ℚ
  positions : List Position
  tradeHistory : List Trade
  equityCurve : List EquityPoint
  totalPnl : ℚ
  totalPnlPercent : ℚ
  realizedPnl : ℚ
  unrealizedPnl : ℚ
  maxDrawdown : ℚ
  currentDrawdown : ℚ
  status : AccStatus
  lastUpdate : ℕ
deriving DecidableEq

/-- The engine-level per-account tracking maps
(`lastEquityRecordTime`, `dailyPnl`, `lastDay`), restricted to one account. -/
structure Aux where
  lastEquityRecordTime : ℕ
  dailyPnl : ℚ
  lastDay : ℕ
deriving DecidableEq

/-- An emitted `PaperTradingEvent` (type and account id; payloads are never inspected
by the engine). -/
structure Event where
  type : String
  accountId : String
deriving DecidableEq

/-- The state threaded through the engine methods for one account: the
account itself, its tracking maps and the events emitted so far. -/
structure EngineSt where
  account : Account
  aux : Aux
  events : List Event
deriving DecidableEq

/-- Sum of `unrealizedPnl` over the `OPEN` positions of an account. -/
def openSum (acc : Account) : ℚ :=
  ((acc.positions.filter (fun p => decide (p.status = PosStatus.OPEN))).map
    Position.unrealizedPnl).sum

/-- Number of `OPEN` positions. -/
def openCount (acc : Account) : ℕ :=
  (acc.positions.filter (fun p => decide (p.status = PosStatus.OPEN))).length

/-- Model of `updateAccountMetrics`: recompute unrealized PnL, equity, margin,
drawdown and total PnL from the positions, and emit `MAX_DRAWDOWN_REACHED`
when the configured drawdown is reached.  (In `ℚ` the drawdown division at
`maxEquity = 0` yields `0` where JS yields `NaN`.) -/
def updateAccountMetrics (now : ℕ) (s : EngineSt) : EngineSt :=
  let acc := s.account
  let unrealizedPnl := openSum acc
  let equity := acc.balance + unrealizedPnl
  let availableMargin := acc.balance
  let maxEquity := if equity > acc.maxEquity then equity else acc.maxEquity
  let currentDrawdown := ((maxEquity - equity) / maxEquity) * 100
  let maxDrawdown := max acc.maxDrawdown currentDrawdown
  let totalPnl := equity - acc.initialBalance
  let totalPnlPercent := totalPnl / acc.initialBalance * 100
  let acc :=
    { acc with unrealizedPnl := unrealizedPnl, equity := equity
               availableMargin := availableMargin, maxEquity := maxEquity
               currentDrawdown := currentDrawdown, maxDrawdown := maxDrawdown
               totalPnl := totalPnl, totalPnlPercent := totalPnlPercent, lastUpdate := now }
  let events :=
    if currentDrawdown ≥ acc.config.maxDrawdown then
      s.events ++ [{ type := "MAX_DRAWDOWN_REACHED", accountId := acc.id }]
    else s.events
  { account := acc, aux := s.aux, events := events }

/-- Model of `recordEquityPoint`: rate-limited to once per minute; refreshes the
equity aggregates and appends an equity-curve point. -/
def recordEquityPoint (now : ℕ) (prices : List (String × ℚ)) (s : EngineSt) : EngineSt :=
  let acc := s.account
  let aux := s.aux
  if now - aux.lastEquityRecordTime < 60000 ∧ acc.equityCurve ≠ [] then s
  else
    let aux := { aux with lastEquityRecordTime := now }
    let currentDay := now / 86400000
    let prevDay := if aux.lastDay = 0 then currentDay else aux.lastDay
    let aux :=
      if currentDay ≠ prevDay then { aux with dailyPnl := 0, lastDay := currentDay } else aux
    let unrealizedPnl := openSum acc
    let equity := acc.balance + unrealizedPnl
    let maxEquity := if equity > acc.maxEquity then equity else acc.maxEquity
    let currentDrawdown := ((maxEquity - equity) / maxEquity) * 100
    let maxDrawdown := if currentDrawdown > acc.maxDrawdown then currentDrawdown
                       else acc.maxDrawdown
    let totalPnl := equity - acc.initialBalance
    let totalPnlPercent := totalPnl / acc.initialBalance * 100
    let point : EquityPoint :=
      { timestamp := now, balance := acc.balance, equity := equity
        availableMargin := acc.availableMargin, unrealizedPnl := unrealizedPnl
        realizedPnl := acc.realizedPnl, dailyPnl := aux.dailyPnl, cumulativePnl := totalPnl
        drawdown := maxEquity - equity, drawdownPercent := currentDrawdown
        maxDrawdown := maxEquity - acc.initialBalance + (maxEquity - equity)
        maxDrawdownPercent := maxDrawdown, openPositions := openCount acc
        tradesCount := acc.tradeHistory.length
        winsCount := (acc.tradeHistory.filter (fun t => decide (t.pnl > 0))).length
        lossesCount := (acc.tradeHistory.filter (fun t => decide (t.pnl ≤ 0))).length
        prices := prices }
    let acc :=
      { acc with unrealizedPnl := unrealizedPnl, equity := equity, maxEquity := maxEquity
                 currentDrawdown := currentDrawdown, maxDrawdown := maxDrawdown
                 totalPnl := totalPnl, totalPnlPercent := totalPnlPercent
                 equityCurve := acc.equityCurve ++ [point], lastUpdate := now }
    { account := acc, aux := aux, events := s.events }

/-- Model of `calculateAvgExitPrice`. -/
def calculateAvgExitPrice (position : Position) : ℚ :=
  if position.exits = [] then 0
  else
    let totalValue := ((position.exits.map (fun e => e.price * e.size)).sum)
    let totalSize := ((position.exits.map TradeExit.size).sum)
    if totalSize > 0 then totalValue / totalSize else 0

/-- Model of `createTrade`. -/
def createTrade (now : ℕ) (position : Position) : Trade :=
  let totalSize := (position.entries.map TradeEntry.size).sum
  let pnl := position.realizedPnl
  let pnlPercent := pnl / position.margin * 100
  { id := "trade-" ++ position.id, positionId := position.id, symbol := position.symbol
    direction := position.direction, avgEntryPrice := position.avgEntryPrice
    totalSize := totalSize, openedAt := position.openedAt
    avgExitPrice := position.avgExitPrice.getD 0
    closedAt := position.closedAt.getD now
    closeReason := position.closeReason.getD ExitReason.MANUAL
    pnl := pnl, pnlPercent := pnlPercent, fees := position.totalFees
    netPnl := pnl - position.totalFees
    durationMinutes :=
      match position.closedAt with
      | some t => ((t : ℚ) - (position.openedAt : ℚ)) / (1000 * 60)
      | none => 0
    tacticsSetId := position.tacticsState.tacticsSetId }

/-- Model of `closePosition` on the position at index `i`: a no-op unless the position
is `OPEN`; otherwise close the full remaining size at `price`, refund
`margin + realizedPnl` to the balance, append the trade, refresh the metrics
and the equity curve and emit `POSITION_CLOSED`. -/
def closePosition (now : ℕ) (i : ℕ) (price : ℚ) (reason : ExitReason) (s : EngineSt) :
    EngineSt :=
  let acc := s.account
  match acc.positions.get? i with
  | none => s
  | some position =>
    if position.status ≠ PosStatus.OPEN then s
    else
      let fee := position.totalSize * price * (acc.config.feePercent / 100)
      let pnl :=
        match position.direction with
        | .LONG => (price - position.avgEntryPrice) * position.totalSize
        | .SHORT => (position.avgEntryPrice - price) * position.totalSize
      let exit : TradeExit :=
        { index := position.exits.length + 1, price := price, size := position.totalSize
          fee := fee, pnl := pnl, reason := reason, timestamp := now, tpIndex := none }
      let position :=
        { position with exits := position.exits ++ [exit]
                        realizedPnl := position.realizedPnl + (pnl - fee)
                        totalFees := position.totalFees + fee
                        status := PosStatus.CLOSED, closedAt := some now
                        avgExitPrice := some price, closeReason := some reason }
      let acc :=
        { acc with positions := acc.positions.set i position
                   balance := acc.balance + position.margin + position.realizedPnl
                   realizedPnl := acc.realizedPnl + position.realizedPnl }
      let trade := createTrade now position
      let acc := { acc with tradeHistory := acc.tradeHistory ++ [trade] }
      let s := updateAccountMetrics now { account := acc, aux := s.aux, events := s.events }
      let s := recordEquityPoint now [(position.symbol, price)] s
      { s with events := s.events ++ [{ type := "POSITION_CLOSED", accountId := s.account.id }] }

/-- Model of `partialClose` of target `j` of the position at index `i` at `price`:
close `closePercent` of the remaining size, mark the target filled, credit
`pnl - fee` to the balance; when the remaining size reaches zero, promote to
`CLOSED` with reason `TP` and append the trade; finally refresh metrics. -/
def partialClose (now : ℕ) (i j : ℕ) (price : ℚ) (s : EngineSt) : EngineSt :=
  let acc := s.account
  match acc.positions.get? i with
  | none => s
  | some position =>
    match position.takeProfitTargets.get? j with
    | none => s
    | some tp =>
      let closeSize := position.totalSize * (tp.closePercent / 100)
      let fee := closeSize * price * (acc.config.feePercent / 100)
      let pnl :=
        match position.direction with
        | .LONG => (price - position.avgEntryPrice) * closeSize
        | .SHORT => (position.avgEntryPrice - price) * closeSize
      let exit : TradeExit :=
        { index := position.exits.length + 1, price := price, size := closeSize
          fee := fee, pnl := pnl, reason := ExitReason.TP, timestamp := now
          tpIndex := some tp.index }
      let position :=
        { position with exits := position.exits ++ [exit]
                        totalSize := position.totalSize - closeSize
                        realizedPnl := position.realizedPnl + (pnl - fee)
                        totalFees := position.totalFees + fee
                        takeProfitTargets := position.takeProfitTargets.set j
                          { tp with filled := true, filledAt := some now } }
      let acc := { acc with positions := acc.positions.set i position
                            balance := acc.balance + (pnl - fee) }
      let events := s.events ++ [{ type := "POSITION_UPDATED", accountId := acc.id }]
      let (acc, events) :=
        if position.totalSize ≤ 0 then
          let position :=
            { position with status := PosStatus.CLOSED, closedAt := some now
                            avgExitPrice := some (calculateAvgExitPrice position)
                            closeReason := some ExitReason.TP }
          let acc := { acc with positions := acc.positions.set i position }
          let trade := createTrade now position
          let acc := { acc with tradeHistory := acc.tradeHistory ++ [trade] }
          (acc, events ++ [{ type := "POSITION_CLOSED", accountId := acc.id }])
        else (acc, events)
      updateAccountMetrics now { account := acc, aux := s.aux, events := events }

/-- Model of `updateTrailingStop` on a single position: activate once the unrealized
PnL percent reaches the activation threshold; afterwards track the best
price and tighten the stop (JS truthiness on the optional numbers). -/
def updateTrailingStop (position : Position) (price : ℚ) : Position :=
  match position.tacticsState.trailingState with
  | none => position
  | some ts =>
    if ¬ ts.activated then
      let profitPercent := position.unrealizedPnlPercent
      let activate : Bool :=
        match ts.activationProfit with
        | some ap => ap != 0 && decide (profitPercent ≥ ap)
        | none => false
      if activate then
        { position with
          tacticsState :=
            { position.tacticsState with
              trailingState :=
                some ({ ts with activated := true, highestPrice := some price,
                                lowestPrice := some price }) } }
      else position
    else
      match position.direction with
      | .LONG =>
        let isNewBest : Bool :=
          match ts.highestPrice with
          | none => true
          | some h => h == 0 || decide (price > h)
        if isNewBest then
          let ts := { ts with highestPrice := some price }
          let tighten :=
            match ts.percentValue with
            | some pv =>
              if pv ≠ 0 then
                let newSL := price * (1 - pv / 100)
                let replace : Bool :=
                  match position.stopLoss with
                  | none => true
                  | some sl => sl == 0 || decide (newSL > sl)
                if replace then some newSL else none
              else none
            | none => none
          match tighten with
          | some newSL =>
            { position with
              stopLoss := some newSL,
              tacticsState :=
                { position.tacticsState with
                  trailingState := some ({ ts with currentStopPrice := some newSL }) } }
          | none =>
            { position with
              tacticsState :=
                { position.tacticsState with trailingState := some ts } }
        else position
      | .SHORT =>
        let isNewBest : Bool :=
          match ts.lowestPrice with
          | none => true
          | some l => l == 0 || decide (price < l)
        if isNewBest then
          let ts := { ts with lowestPrice := some price }
          let tighten :=
            match ts.percentValue with
            | some pv =>
              if pv ≠ 0 then
                let newSL := price * (1 + pv / 100)
                let replace : Bool :=
                  match position.stopLoss with
                  | none => true
                  | some sl => sl == 0 || decide (newSL < sl)
                if replace then some newSL else none
              else none
            | none => none
          match tighten with
          | some newSL =>
            { position with
              stopLoss := some newSL,
              tacticsState :=
                { position.tacticsState with
                  trailingState := some ({ ts with currentStopPrice := some newSL }) } }
          | none =>
            { position with
              tacticsState :=
                { position.tacticsState with trailingState := some ts } }
        else position

/-- The stop-loss trigger of `updatePositionPrice`
(`if (position.stopLoss)` JS truthiness plus the directional comparison). -/
def slHit (position : Position) (price : ℚ) : Prop :=
  match position.stopLoss with
  | some sl => sl ≠ 0 ∧
      (match position.direction with
       | .LONG => price ≤ sl
       | .SHORT => price ≥ sl)
  | none => False

instance (position : Position) (price : ℚ) : Decidable (slHit position price) := by
  unfold slHit
  match position.stopLoss with
  | some sl =>
    match position.direction with
    | .LONG => exact inferInstanceAs (Decidable (sl ≠ 0 ∧ price ≤ sl))
    | .SHORT => exact inferInstanceAs (Decidable (sl ≠ 0 ∧ price ≥ sl))
  | none => exact inferInstanceAs (Decidable False)

/-- The take-profit trigger of `updatePositionPrice`. -/
def tpHit (direction : Direction) (price tpPrice : ℚ) : Prop :=
  match direction with
  | .LONG => price ≥ tpPrice
  | .SHORT => price ≤ tpPrice

instance (direction : Direction) (price tpPrice : ℚ) : Decidable (tpHit direction price tpPrice) := by
  unfold tpHit
  match direction with
  | .LONG => exact inferInstanceAs (Decidable (price ≥ tpPrice))
  | .SHORT => exact inferInstanceAs (Decidable (price ≤ tpPrice))

/-- The liquidation trigger of `updatePositionPrice`. -/
def liqHit (position : Position) (price : ℚ) : Prop :=
  match position.liquidationPrice with
  | some lp => lp ≠ 0 ∧
      (match position.direction with
       | .LONG => price ≤ lp
       | .SHORT => price ≥ lp)
  | none => False

instance (position : Position) (price : ℚ) : Decidable (liqHit position price) := by
  unfold liqHit
  match position.liquidationPrice with
  | some lp =>
    match position.direction with
    | .LONG => exact inferInstanceAs (Decidable (lp ≠ 0 ∧ price ≤ lp))
    | .SHORT => exact inferInstanceAs (Decidable (lp ≠ 0 ∧ price ≥ lp))
  | none => exact inferInstanceAs (Decidable False)

/-- The take-profit scan of `updatePositionPrice`: visit the targets in index
order, re-reading the live position each step, and partially close on every
unfilled hit target (at the target price). -/
def tpLoop (now : ℕ) (i : ℕ) (price : ℚ) : List ℕ → EngineSt → EngineSt
  | [], s => s
  | j :: js, s =>
    let s' :=
      match s.account.positions.get? i with
      | none => s
      | some position =>
        match position.takeProfitTargets.get? j with
        | none => s
        | some tp =>
          if tp.filled then s
          else if tpHit position.direction price tp.price then
            partialClose now i j tp.price s
          else s
    tpLoop now i price js s'

/-- Model of `updatePositionPrice` on the position at index `i`: (1) refresh current
price and unrealized PnL, (2) stop-loss — on a hit, close the full remaining
position at the stop price with reason `SL` and stop, (3) take-profit scan,
(4) trailing stop, (5) liquidation (a no-op when the position is no longer
`OPEN`, by the guard in `closePosition`). -/
def updatePositionPrice (now : ℕ) (i : ℕ) (price : ℚ) (s : EngineSt) : EngineSt :=
  let acc := s.account
  match acc.positions.get? i with
  | none => s
  | some position₀ =>
    let unrealizedPnl :=
      match position₀.direction with
      | .LONG => (price - position₀.avgEntryPrice) * position₀.totalSize
      | .SHORT => (position₀.avgEntryPrice - price) * position₀.totalSize
    let position :=
      { position₀ with currentPrice := price, unrealizedPnl := unrealizedPnl
                       unrealizedPnlPercent := (unrealizedPnl / position₀.margin) * 100 }
    let s := { s with account := { acc with positions := acc.positions.set i position } }
    if slHit position price then
      closePosition now i (position.stopLoss.getD 0) ExitReason.SL s
    else
      let s := tpLoop now i price (List.range position.takeProfitTargets.length) s
      let s := { s with account :=
        { s.account with positions :=
            s.account.positions.modify (fun p => updateTrailingStop p price) i } }
      match s.account.positions.get? i with
      | none => s
      | some p =>
        if liqHit p price then
          closePosition now i (p.liquidationPrice.getD 0) ExitReason.LIQUIDATION s
        else s

/-- The per-position scan of `updatePrices` for one account: skip positions
that are not `OPEN` and symbols without a (truthy) price. -/
def posLoop (now : ℕ) (prices : List (String × ℚ)) : List ℕ → EngineSt → EngineSt
  | [], s => s
  | i :: is, s =>
    let s' :=
      match s.account.positions.get? i with
      | none => s
      | some position =>
        if position.status = PosStatus.OPEN then
          match prices.lookup position.symbol with
          | some price => if price ≠ 0 then updatePositionPrice now i price s else s
          | none => s
        else s
    posLoop now prices is s'

/-- The body of `updatePrices` for one account: skip accounts that are not
`RUNNING`; otherwise update every open position, refresh the account metrics
and record an equity point. -/
def updatePricesAccount (now : ℕ) (prices : List (String × ℚ)) (s : EngineSt) : EngineSt :=
  if s.account.status = AccStatus.RUNNING then
    let s := posLoop now prices (List.range s.account.positions.length) s
    let s := updateAccountMetrics now s
    recordEquityPoint now prices s
  else s

end Paper

namespace Fix

/-!
Concrete inputs used by the witness and counterexample theorems below.
-/

/-- A registered strategy whose `populateIndicators` throws. -/
def strat0 : SM.IStrategy Unit :=
  { config := { id := "s", minCandlesRequired := 0, defaultTimeframe := "1h" }
    state := ()
    getState := fun _ => { parameters := [] }
    init := fun s _ => s
    populateIndicators := fun _ _ => Except.error "indicator boom"
    populateEntrySignal := fun _ _ _ _ => Except.ok none
    populateExitSignal := fun _ _ _ _ => Except.ok none }

/-- A manager with exactly `strat0` registered. -/
def mgr0 : SM.ManagerState Unit :=
  { strategies := [("s", strat0)], runningStrategies := [], candleCache := [] }

/-- A validator that rejects every parameters record. -/
def rejectValidate : SM.StrategyConfig → SM.Params → SM.Validation :=
  fun _ _ => { valid := false, errors := ["bad parameter"] }

/-- A position snapshot for `checkExit`. -/
def snap0 : SM.PositionSnapshot :=
  { direction := "LONG", entryPrice := 1, currentPrice := 1, size := 1, openTime := 0 }

/-- A paper-trading config with zero fees. -/
def cfg0 : Paper.Config :=
  { id := "acc", name := "Test", initialBalance := 1000, feePercent := 0, maxDrawdown := 100
    maxOpenPositions := 3, maxLeverage := 1, maxRiskPerTrade := 1, autoTrading := true }

/-- A tactics state with no trailing stop. -/
def tac0 : Paper.TacticsState := { tacticsSetId := "t1", trailingState := none }

/-- A long position whose stop loss at 95 and take-profit target at 90 are
both hit by a tick at 92. -/
def pos0 : Paper.Position :=
  { id := "pos-1", symbol := "BTCUSDT", direction := .LONG, status := .OPEN
    avgEntryPrice := 100
    entries := [{ index := 1, price := 100, size := 1, fee := 0, timestamp := 0
                  orderType := "MARKET" }]
    totalSize := 1, openedAt := 0, avgExitPrice := none, exits := [], closedAt := none
    closeReason := none, currentPrice := 100, stopLoss := some 95
    takeProfitTargets := [{ index := 1, price := 90, closePercent := 100, filled := false
                            filledAt := none }]
    unrealizedPnl := 0, unrealizedPnlPercent := 0, realizedPnl := 0, totalFees := 0
    leverage := 1, marginMode := "isolated", margin := 100, liquidationPrice := none
    tacticsState := tac0 }

/-- A running account holding `pos0`. -/
def acc0 : Paper.Account :=
  { id := "acc", name := "Test", config := cfg0, initialBalance := 1000, balance := 900
    equity := 900, availableMargin := 900, maxEquity := 1000, positions := [pos0]
    tradeHistory := [], equityCurve := [], totalPnl := 0, totalPnlPercent := 0
    realizedPnl := 0, unrealizedPnl := 0, maxDrawdown := 0, currentDrawdown := 0
    status := .RUNNING, lastUpdate := 0 }

/-- Engine state for `acc0`. -/
def st0 : Paper.EngineSt :=
  { account := acc0, aux := { lastEquityRecordTime := 0, dailyPnl := 0, lastDay := 0 }
    events := [] }

/-- C8 counterexample: neutral indicators, perfect correlation, negative
correlation weight. -/
def aggX : Forecast.AggregatedIndicators :=
  { roc_24h := 0, atr_pct := 1 / 50, trend_strength := 0, volumeRatio := 1
    crypto_cnt := 0, stock_cnt := 0, gold_roc := 1 }

/-- C8 counterexample correlations. -/
def corrX : Forecast.Correlations := { avg_corr := 1 }

/-- C8 counterexample config: `correlationWeight = -2`. -/
def cfgX : Forecast.VisionBotConfigP :=
  { trendThreshold := none, volatilityLow := none, volatilityHigh := none
    correlationWeight := some (-2) }

/-- C8 witness indicators (all defaults, no branch adjustments but the
volatility one). -/
def aggY : Forecast.AggregatedIndicators :=
  { roc_24h := 0, atr_pct := 0, trend_strength := 0, volumeRatio := 1
    crypto_cnt := 0, stock_cnt := 0, gold_roc := 0 }

/-- C8 witness correlations. -/
def corrY : Forecast.Correlations := { avg_corr := 0 }

/-- C8 witness config: everything defaulted. -/
def cfgY : Forecast.VisionBotConfigP :=
  { trendThreshold := none, volatilityLow := none, volatilityHigh := none
    correlationWeight := none }

/-- C1 failing input: two candles with closes 1 and 2. -/
def candlesC1 : List Chart.Candle :=
  [{ time := 1, openPrice := 1, high := 1, low := 1, close := 1, volume := 1 },
   { time := 2, openPrice := 2, high := 2, low := 2, close := 2, volume := 2 }]

/-- C1 failing input: `fastLength 1`, `slowLength 2`, `signalLength 3`. -/
def inputsC1 : Chart.Inputs :=
  { length := 0, fastLength := 1, slowLength := 2, signalLength := 3, mult := 0 }

/-- A concrete stand-in for `Math.sqrt` in witnesses. -/
def sqrt0 : ℚ → ℚ := fun _ => 0

/-- Inputs with every period 1. -/
def inputs1 : Chart.Inputs :=
  { length := 1, fastLength := 1, slowLength := 1, signalLength := 1, mult := 1 }

/-- A single candle. -/
def candles1 : List Chart.Candle :=
  [{ time := 7, openPrice := 1, high := 2, low := 1, close := 2, volume := 3 }]

end Fix

/-! ## Theorems -/

/-- C7: `getStrategyManager` is a process-wide singleton accessor: the first
call on an empty cell creates and caches the instance, and a repeated call
returns exactly the result of the previous call (same instance, unchanged
state), so every pair of calls within one process yields the same
`StrategyManager` object. -/
theorem getStrategyManager_singleton :
    (∀ s : SM.SingletonState, s.strategyManagerInstance = none →
      ((SM.getStrategyManager s).2).strategyManagerInstance =
        some (SM.getStrategyManager s).1) ∧
    (∀ s : SM.SingletonState,
      SM.getStrategyManager (SM.getStrategyManager s).2 = SM.getStrategyManager s) := by
  constructor
  · intro s h
    simp [SM.getStrategyManager, h]
  · intro s
    unfold SM.getStrategyManager
    cases h : s.strategyManagerInstance <;> simp [h]

/-- Witness for C7 at the empty cell. -/
theorem getStrategyManager_singleton_witness :
    ((⟨none, 0⟩ : SM.SingletonState).strategyManagerInstance = none) ∧
    ((SM.getStrategyManager ⟨none, 0⟩).2).strategyManagerInstance =
      some (SM.getStrategyManager (⟨none, 0⟩ : SM.SingletonState)).1 :=
  ⟨rfl, getStrategyManager_singleton.1 ⟨none, 0⟩ rfl⟩

/-- C5: `StrategyManager.start` with an unregistered strategy id, or with a
parameters record the validator rejects, returns `success := false` with the
descriptive error message (the not-found message, resp. the joined validator
errors), and leaves the manager state untouched: the strategy is not
initialized and no running-strategies entry is added. -/
theorem start_rejects_invalid_without_mutation {σ : Type}
    (validate : SM.StrategyConfig → SM.Params → SM.Validation)
    (m : SM.ManagerState σ) (strategyId symbol timeframe : String)
    (parameters : Option SM.Params) (now : ℕ) :
    (m.strategies.lookup strategyId = none →
      SM.start validate m strategyId symbol timeframe parameters now =
        ({ success := false
           error := some ("Strategy " ++ strategyId ++ " not found") }, m)) ∧
    (∀ strategy ps, m.strategies.lookup strategyId = some strategy →
      parameters = some ps →
      (validate strategy.config ps).valid = false →
      SM.start validate m strategyId symbol timeframe parameters now =
        ({ success := false
           error := some (String.intercalate "; " (validate strategy.config ps).errors) },
         m)) := by
  constructor
  · intro h
    simp [SM.start, h]
  · intro strategy ps hlook hps hvalid
    subst hps
    simp [SM.start, hlook, hvalid]

/-- Witness for C5: the fixture manager rejects unknown ids and rejected
parameters without any state change. -/
theorem start_rejects_invalid_without_mutation_witness :
    (Fix.mgr0.strategies.lookup "s" = some Fix.strat0) ∧
    (some [] = some ([] : SM.Params)) ∧
    ((Fix.rejectValidate Fix.strat0.config []).valid = false) ∧
    SM.start Fix.rejectValidate Fix.mgr0 "s" "BTCUSDT" "1h" (some []) 0 =
      ({ success := false, error := some "bad parameter" }, Fix.mgr0) := by
  refine ⟨rfl, rfl, rfl, ?_⟩
  have h := (start_rejects_invalid_without_mutation Fix.rejectValidate Fix.mgr0
    "s" "BTCUSDT" "1h" (some []) 0).2 Fix.strat0 [] rfl rfl rfl
  simpa [Fix.rejectValidate] using h

/-- C4: when the injected strategy throws during `StrategyManager.analyze`,
the exception does not propagate: if `populateIndicators` throws, `analyze`
returns `signal = null` with the thrown message as the errors list and
`checkExit` returns `null`; if `populateIndicators` succeeds and
`populateEntrySignal` throws, `analyze` likewise returns `signal = null`
with that message recorded. -/
theorem analyze_and_checkExit_catch_strategy_errors {σ : Type}
    (m : SM.ManagerState σ) (strategyId symbol : String)
    (candles : List Chart.Candle) (now : ℕ) (strategy : SM.IStrategy σ)
    (position : SM.PositionSnapshot)
    (hlook : m.strategies.lookup strategyId = some strategy)
    (hlen : strategy.config.minCandlesRequired ≤ candles.length) :
    (∀ msg, strategy.populateIndicators strategy.state candles = .error msg →
      ((SM.analyze m strategyId symbol candles now).signal = none ∧
       (SM.analyze m strategyId symbol candles now).errors = some [msg]) ∧
      SM.checkExit m strategyId candles position = none) ∧
    (∀ ind lastCandle msg,
      strategy.populateIndicators strategy.state candles = .ok ind →
      candles.getLast? = some lastCandle →
      strategy.populateEntrySignal strategy.state candles ind lastCandle.close =
        .error msg →
      (SM.analyze m strategyId symbol candles now).signal = none ∧
      (SM.analyze m strategyId symbol candles now).errors = some [msg]) := by
  have hnotlt : ¬ candles.length < strategy.config.minCandlesRequired :=
    Nat.not_lt.mpr hlen
  constructor
  · intro msg herr
    refine ⟨?_, ?_⟩
    · simp [SM.analyze, hlook, hnotlt, herr]
    · simp [SM.checkExit, hlook, herr]
  · intro ind lastCandle msg hok hlast herr
    simp [SM.analyze, hlook, hnotlt, hok, hlast, herr]

/-- Witness for C4: the fixture strategy throws in `populateIndicators`;
`analyze` reports the message and `checkExit` returns `null`. -/
theorem analyze_and_checkExit_catch_strategy_errors_witness :
    (Fix.mgr0.strategies.lookup "s" = some Fix.strat0) ∧
    (Fix.strat0.config.minCandlesRequired ≤ ([] : List Chart.Candle).length) ∧
    (Fix.strat0.populateIndicators Fix.strat0.state [] = .error "indicator boom") ∧
    (((SM.analyze Fix.mgr0 "s" "BTCUSDT" [] 0).signal = none ∧
      (SM.analyze Fix.mgr0 "s" "BTCUSDT" [] 0).errors = some ["indicator boom"]) ∧
     SM.checkExit Fix.mgr0 "s" [] Fix.snap0 = none) := by
  refine ⟨rfl, Nat.le_refl 0, rfl, ?_⟩
  exact (analyze_and_checkExit_catch_strategy_errors Fix.mgr0 "s" "BTCUSDT" [] 0
    Fix.strat0 Fix.snap0 rfl (Nat.le_refl 0)).1 "indicator boom" rfl

/-- Model of `updateAccountMetrics` recomputes the equity equation exactly. -/
theorem updateAccountMetrics_equity (now : ℕ) (s : Paper.EngineSt) :
    (Paper.updateAccountMetrics now s).account.equity =
      (Paper.updateAccountMetrics now s).account.balance +
        Paper.openSum (Paper.updateAccountMetrics now s).account := by
  simp [Paper.updateAccountMetrics, Paper.openSum]

/-- Model of `recordEquityPoint` does not change the positions or the balance, and it
preserves the equity equation. -/
theorem recordEquityPoint_equity (now : ℕ) (prices : List (String × ℚ))
    (s : Paper.EngineSt)
    (h : s.account.equity = s.account.balance + Paper.openSum s.account) :
    (Paper.recordEquityPoint now prices s).account.equity =
      (Paper.recordEquityPoint now prices s).account.balance +
        Paper.openSum (Paper.recordEquityPoint now prices s).account := by
  unfold Paper.recordEquityPoint
  dsimp only
  split
  · exact h
  · simp [Paper.openSum]

/-- C2: after a `updatePrices` step on a `RUNNING` account, the account
satisfies `equity = balance + Σ (unrealizedPnl of its OPEN positions)`
exactly (the engine recomputes the equation from the positions at the end of
every price update), for any prior account state, prices and tick. -/
theorem equity_invariant_after_price_update (now : ℕ) (prices : List (String × ℚ))
    (s : Paper.EngineSt) (hrun : s.account.status = Paper.AccStatus.RUNNING) :
    (Paper.updatePricesAccount now prices s).account.equity =
      (Paper.updatePricesAccount now prices s).account.balance +
        Paper.openSum (Paper.updatePricesAccount now prices s).account := by
  unfold Paper.updatePricesAccount
  rw [if_pos hrun]
  exact recordEquityPoint_equity _ _ _ (updateAccountMetrics_equity _ _)

/-- Model of `updateAccountMetrics` does not change the positions. -/
theorem updateAccountMetrics_positions (now : ℕ) (s : Paper.EngineSt) :
    (Paper.updateAccountMetrics now s).account.positions = s.account.positions := by
  simp [Paper.updateAccountMetrics]

/-- Model of `recordEquityPoint` does not change the positions. -/
theorem recordEquityPoint_positions (now : ℕ) (prices : List (String × ℚ))
    (s : Paper.EngineSt) :
    (Paper.recordEquityPoint now prices s).account.positions = s.account.positions := by
  unfold Paper.recordEquityPoint
  dsimp only
  split
  · rfl
  · rfl

/-- Setting the element at an occupied index makes `get?` return it. -/
theorem get?_set_self {α : Type} (l : List α) (i : ℕ) (a b : α)
    (hp : l.get? i = some a) : (l.set i b).get? i = some b := by
  have hi : i < l.length := by
    rw [List.get?_eq_getElem?] at hp
    by_contra hcon
    rw [List.getElem?_eq_none (Nat.le_of_not_lt hcon)] at hp
    exact Option.noConfusion hp
  rw [List.get?_eq_getElem?, List.getElem?_set_eq_of_lt b hi]

/-- Model of `closePosition` on an `OPEN` position at a valid index fully closes it:
the position becomes `CLOSED` with the given reason and exit price, and
exactly one exit covering the whole remaining size is appended; all other
per-position fields (in particular the take-profit targets) are untouched. -/
theorem closePosition_spec (now i : ℕ) (price : ℚ) (reason : Paper.ExitReason)
    (s : Paper.EngineSt) (p : Paper.Position)
    (hp : s.account.positions.get? i = some p)
    (hst : p.status = Paper.PosStatus.OPEN) :
    ∃ e : Paper.TradeExit,
      (Paper.closePosition now i price reason s).account.positions.get? i = some
        { p with exits := p.exits ++ [e]
                 realizedPnl := p.realizedPnl + (e.pnl - e.fee)
                 totalFees := p.totalFees + e.fee
                 status := Paper.PosStatus.CLOSED, closedAt := some now
                 avgExitPrice := some price, closeReason := some reason } ∧
      e.reason = reason ∧ e.price = price ∧ e.size = p.totalSize := by
  refine ⟨{ index := p.exits.length + 1, price := price, size := p.totalSize
            fee := p.totalSize * price * (s.account.config.feePercent / 100)
            pnl := (match p.direction with
              | .LONG => (price - p.avgEntryPrice) * p.totalSize
              | .SHORT => (p.avgEntryPrice - price) * p.totalSize)
            reason := reason, timestamp := now, tpIndex := none }, ?_, rfl, rfl, rfl⟩
  unfold Paper.closePosition
  dsimp only
  rw [hp]
  dsimp only
  rw [if_neg (by simp [hst])]
  dsimp only
  rw [recordEquityPoint_positions, updateAccountMetrics_positions]
  exact get?_set_self _ _ _ _ hp

theorem equity_invariant_after_price_update_witness :
    (Fix.st0.account.status = Paper.AccStatus.RUNNING) ∧
    ((Paper.updatePricesAccount 0 [("BTCUSDT", 92)] Fix.st0).account.equity =
      (Paper.updatePricesAccount 0 [("BTCUSDT", 92)] Fix.st0).account.balance +
        Paper.openSum (Paper.updatePricesAccount 0 [("BTCUSDT", 92)] Fix.st0).account) :=
  ⟨rfl, equity_invariant_after_price_update 0 [("BTCUSDT", 92)] Fix.st0 rfl⟩


/-- Model of `closePosition` at the stop price of a position whose stop loss is set:
helper for the stop-loss branch of `updatePositionPrice`, stated over any
state `S` holding at index `i` a position `q` that agrees with `p` on the
fields the claim observes. -/
theorem closePosition_sl_spec (now i : ℕ) (S : Paper.EngineSt)
    (q p : Paper.Position) (sl cp : ℚ)
    (hq : S.account.positions.get? i = some q)
    (hqst : q.status = Paper.PosStatus.OPEN)
    (hcpsl : cp = sl)
    (hqtp : q.takeProfitTargets = p.takeProfitTargets)
    (hqex : q.exits = p.exits)
    (hqsz : q.totalSize = p.totalSize) :
    ∃ p', (Paper.closePosition now i cp Paper.ExitReason.SL
        S).account.positions.get? i = some p' ∧
      p'.status = Paper.PosStatus.CLOSED ∧
      p'.closeReason = some Paper.ExitReason.SL ∧
      p'.avgExitPrice = some sl ∧
      p'.takeProfitTargets = p.takeProfitTargets ∧
      ∃ e, p'.exits = p.exits ++ [e] ∧ e.reason = Paper.ExitReason.SL ∧
        e.price = sl ∧ e.size = p.totalSize := by
  obtain ⟨e, hgot, her, hepr, hesz⟩ :=
    closePosition_spec now i cp Paper.ExitReason.SL S q hq hqst
  refine ⟨_, hgot, rfl, rfl, ?_, ?_, e, ?_, her, ?_, ?_⟩
  · show some cp = some sl
    rw [hcpsl]
  · show q.takeProfitTargets = p.takeProfitTargets
    exact hqtp
  · show q.exits ++ [e] = p.exits ++ [e]
    rw [hqex]
  · rw [hepr, hcpsl]
  · rw [hesz, hqsz]

/-- C3: on a tick where a position's stop loss is hit and at least one of
its take-profit targets is also hit, `updatePositionPrice` closes the full
remaining position at the stop price with reason `SL` and fills no
take-profit target on that tick: the targets are returned unchanged and the
single appended exit is the `SL` exit over the whole remaining size. -/
theorem sl_precedence_over_tp (now i : ℕ) (price : ℚ) (s : Paper.EngineSt)
    (p : Paper.Position) (sl : ℚ)
    (hp : s.account.positions.get? i = some p)
    (hst : p.status = Paper.PosStatus.OPEN)
    (hsl : p.stopLoss = some sl)
    (hhit : Paper.slHit p price)
    (_htp : ∃ tp ∈ p.takeProfitTargets, tp.filled = false ∧
      Paper.tpHit p.direction price tp.price) :
    ∃ p', (Paper.updatePositionPrice now i price s).account.positions.get? i = some p' ∧
      p'.status = Paper.PosStatus.CLOSED ∧
      p'.closeReason = some Paper.ExitReason.SL ∧
      p'.avgExitPrice = some sl ∧
      p'.takeProfitTargets = p.takeProfitTargets ∧
      ∃ e, p'.exits = p.exits ++ [e] ∧ e.reason = Paper.ExitReason.SL ∧
        e.price = sl ∧ e.size = p.totalSize := by
  unfold Paper.updatePositionPrice
  dsimp only
  rw [hp]
  dsimp only
  split
  · exact closePosition_sl_spec now i _ _ p sl (p.stopLoss.getD 0)
      (get?_set_self _ _ _ _ hp) hst (by rw [hsl]; rfl) rfl rfl rfl
  · next h => exact absurd hhit h

/-- Witness for C3 on the fixture position: stop loss 95 and take-profit 90
both hit by a tick at 92; the position closes at 95 via `SL`. -/
theorem sl_precedence_over_tp_witness :
    (Fix.st0.account.positions.get? 0 = some Fix.pos0) ∧
    (Fix.pos0.status = Paper.PosStatus.OPEN) ∧
    (Fix.pos0.stopLoss = some 95) ∧
    Paper.slHit Fix.pos0 92 ∧
    (∃ tp ∈ Fix.pos0.takeProfitTargets, tp.filled = false ∧
      Paper.tpHit Fix.pos0.direction 92 tp.price) ∧
    (∃ p', (Paper.updatePositionPrice 0 0 92 Fix.st0).account.positions.get? 0 =
        some p' ∧
      p'.status = Paper.PosStatus.CLOSED ∧
      p'.closeReason = some Paper.ExitReason.SL ∧
      p'.avgExitPrice = some 95 ∧
      p'.takeProfitTargets = Fix.pos0.takeProfitTargets ∧
      ∃ e, p'.exits = Fix.pos0.exits ++ [e] ∧ e.reason = Paper.ExitReason.SL ∧
        e.price = 95 ∧ e.size = Fix.pos0.totalSize) := by
  have h1 : Paper.slHit Fix.pos0 92 := by
    simp [Paper.slHit, Fix.pos0]
    norm_num
  have h2 : ∃ tp ∈ Fix.pos0.takeProfitTargets, tp.filled = false ∧
      Paper.tpHit Fix.pos0.direction 92 tp.price := by
    refine ⟨{ index := 1, price := 90, closePercent := 100, filled := false
              filledAt := none }, ?_, rfl, ?_⟩
    · simp [Fix.pos0]
    · simp [Paper.tpHit, Fix.pos0]
      norm_num
  exact ⟨rfl, rfl, rfl, h1, h2,
    sl_precedence_over_tp 0 0 92 Fix.st0 Fix.pos0 95 rfl rfl rfl h1 h2⟩

/-- C1 (failing input): with `fastLength 1`, `slowLength 2`, `signalLength 3`
on closes `[1, 2]`, `calculateMACD` computes its slow EMA from
`inputs.signalLength`, so its MACD line is whitespace everywhere, while the
MACD line declared by the built-in `macd` indicator
(`EMA(closes, fastLength) - EMA(closes, slowLength)`) has the value `1/2` at
index 1.  The code therefore contradicts its own indicator declaration. -/
theorem calculateMACD_contradicts_declaration :
    ((Chart.calculateMACD Fix.candlesC1 Fix.inputsC1).lines.map
        (fun l => l.data.map Chart.LinePoint.value)) =
      [[none, none], [none, none]] ∧
    Chart.macdLineDeclared (Fix.candlesC1.map Chart.Candle.close) Fix.inputsC1 =
      [none, some (1 / 2)] := by
  constructor
  · norm_num [Chart.calculateMACD, Chart.ema, Chart.emaRec, Chart.buildLineData,
      Fix.candlesC1, Fix.inputsC1, List.range_succ]
  · norm_num [Chart.macdLineDeclared, Chart.ema, Chart.emaRec,
      Fix.candlesC1, Fix.inputsC1, List.range_succ]

/-- C6: for every built-in indicator, `calculateIndicator` is deterministic
and stateless: with the ambient console made explicit, a call leaves the
console untouched, its result does not depend on the ambient state, and it
always returns the value of the corresponding pure calculator applied to the
arguments alone (so two calls with the same arguments are structurally
equal; candles are consumed immutably by construction). -/
theorem calculateIndicator_stateless (ind : Chart.BuiltInIndicator)
    (hmem : ind ∈ Chart.BUILTIN_INDICATORS) (sqrtA : ℚ → ℚ)
    (console console' : List String) (candles : List Chart.Candle)
    (inputs : Chart.Inputs) :
    (Chart.calculateIndicatorW sqrtA console ind candles inputs).1 = console ∧
    (Chart.calculateIndicatorW sqrtA console ind candles inputs).2 =
      (Chart.calculateIndicatorW sqrtA console' ind candles inputs).2 ∧
    (Chart.calculateIndicatorW sqrtA console ind candles inputs).2 =
      Chart.calculateIndicator sqrtA ind candles inputs ∧
    (Chart.calculateIndicator sqrtA ind candles inputs).isSome = true := by
  have hid : ind.id = "sma" ∨ ind.id = "ema" ∨ ind.id = "ema_cross" ∨ ind.id = "rsi" ∨
      ind.id = "macd" ∨ ind.id = "bb" ∨ ind.id = "atr" ∨ ind.id = "vol_sma" := by
    simp only [Chart.BUILTIN_INDICATORS, List.mem_cons, List.not_mem_nil,
      or_false] at hmem
    rcases hmem with h | h | h | h | h | h | h | h
    all_goals rw [h]
    all_goals simp
  rcases hid with h | h | h | h | h | h | h | h <;>
    simp [Chart.calculateIndicatorW, Chart.calculateIndicator,
      Chart.indicatorCalculators, h]

/-- Witness for C6 at the `sma` built-in on one candle. -/
theorem calculateIndicator_stateless_witness :
    (Chart.BUILTIN_INDICATORS.get? 0 =
      some { id := "sma", name := "Simple Moving Average"
             category := "moving_average", overlay := true }) ∧
    ({ id := "sma", name := "Simple Moving Average", category := "moving_average"
       overlay := true } : Chart.BuiltInIndicator) ∈ Chart.BUILTIN_INDICATORS ∧
    (Chart.calculateIndicatorW Fix.sqrt0 ["old log line"]
      { id := "sma", name := "Simple Moving Average", category := "moving_average"
        overlay := true } Fix.candles1 Fix.inputs1).1 = ["old log line"] ∧
    (Chart.calculateIndicator Fix.sqrt0
      { id := "sma", name := "Simple Moving Average", category := "moving_average"
        overlay := true } Fix.candles1 Fix.inputs1).isSome = true := by
  have h := calculateIndicator_stateless
    { id := "sma", name := "Simple Moving Average", category := "moving_average"
      overlay := true } (by simp [Chart.BUILTIN_INDICATORS]) Fix.sqrt0
    ["old log line"] [] Fix.candles1 Fix.inputs1
  exact ⟨rfl, by simp [Chart.BUILTIN_INDICATORS], h.1, h.2.2.2⟩

/-- One RSI value is within `[0, 100]` when the averages are nonnegative. -/
theorem rsiVal_bounds (g l : ℚ) (hg : 0 ≤ g) (hl : 0 ≤ l) :
    0 ≤ (if l = 0 then (100 : ℚ) else 100 - 100 / (1 + g / l)) ∧
    (if l = 0 then (100 : ℚ) else 100 - 100 / (1 + g / l)) ≤ 100 := by
  split_ifs with h
  · norm_num
  · have hl' : 0 < l := lt_of_le_of_ne hl (Ne.symm h)
    have hgl : 0 ≤ g / l := div_nonneg hg hl'.le
    have h1 : (0 : ℚ) < 1 + g / l := by linarith
    have hle : 100 / (1 + g / l) ≤ 100 := by
      rw [div_le_iff₀ h1]
      nlinarith
    have hpos : 0 < 100 / (1 + g / l) := by positivity
    constructor <;> linarith

/-- Every value of the RSI smoothing loop is within `[0, 100]`, as long as
the running averages start nonnegative and the period is at least one. -/
theorem rsiLoop_bounds : ∀ (cs : List ℚ) (period g l : ℚ),
    1 ≤ period → 0 ≤ g → 0 ≤ l →
    ∀ v ∈ Chart.rsiLoop period g l cs, 0 ≤ v ∧ v ≤ 100 := by
  intro cs
  induction cs with
  | nil =>
    intro period g l _ _ _ v hv
    simp [Chart.rsiLoop] at hv
  | cons c rest ih =>
    intro period g l hp hg hl v hv
    simp only [Chart.rsiLoop, List.mem_cons] at hv
    have hper : (0 : ℚ) < period := by linarith
    have hgain : 0 ≤ (if c > 0 then c else 0 : ℚ) := by split_ifs with h <;> linarith
    have hloss : 0 ≤ (if c < 0 then -c else 0 : ℚ) := by split_ifs with h <;> linarith
    have hg' : 0 ≤ (g * (period - 1) + if c > 0 then c else 0) / period := by
      apply div_nonneg _ hper.le
      have := mul_nonneg hg (by linarith : (0 : ℚ) ≤ period - 1)
      linarith
    have hl' : 0 ≤ (l * (period - 1) + if c < 0 then -c else 0) / period := by
      apply div_nonneg _ hper.le
      have := mul_nonneg hl (by linarith : (0 : ℚ) ≤ period - 1)
      linarith
    rcases hv with rfl | hv
    · exact rsiVal_bounds _ _ hg' hl'
    · exact ih period _ _ hp hg' hl' v hv

/-- C10: every non-null value in the array returned by the `rsi` helper lies
in the closed interval `[0, 100]` (it equals `100` exactly when the running
average loss is `0`), for every closes list and every period at least 1 with
`closes.length ≥ period + 1`. -/
theorem rsi_values_within_0_100 (closes : List ℚ) (period : ℕ) (x : ℚ)
    (hper : 1 ≤ period) (hlen : period + 1 ≤ closes.length)
    (hmem : some x ∈ Chart.rsi closes period) : 0 ≤ x ∧ x ≤ 100 := by
  unfold Chart.rsi at hmem
  rw [if_pos ⟨hper, hlen⟩] at hmem
  have hperQ : (1 : ℚ) ≤ (period : ℚ) := by exact_mod_cast hper
  have hperQ0 : (0 : ℚ) < (period : ℚ) := by linarith
  have hg0 : 0 ≤ (((Chart.changes closes).take period).map
      (fun c => if c > 0 then c else 0)).sum / (period : ℚ) := by
    apply div_nonneg _ hperQ0.le
    apply List.sum_nonneg
    intro y hy
    simp only [List.mem_map] at hy
    obtain ⟨c, _, rfl⟩ := hy
    split_ifs with h <;> linarith
  have hl0 : 0 ≤ (((Chart.changes closes).take period).map
      (fun c => if c > 0 then 0 else -c)).sum / (period : ℚ) := by
    apply div_nonneg _ hperQ0.le
    apply List.sum_nonneg
    intro y hy
    simp only [List.mem_map] at hy
    obtain ⟨c, _, rfl⟩ := hy
    split_ifs with h <;> linarith
  simp only [List.mem_append, List.mem_replicate, List.mem_cons, List.mem_map] at hmem
  rcases hmem with ⟨_, hmem⟩ | hmem | ⟨v, hv, hvx⟩
  · exact absurd hmem (by simp)
  · have hx := Option.some.inj hmem
    subst hx
    exact rsiVal_bounds _ _ hg0 hl0
  · have hx := Option.some.inj hvx
    subst hx
    exact rsiLoop_bounds _ _ _ _ hperQ hg0 hl0 v hv

/-- Witness for C10: `rsi [1, 2, 1] 1 = [none, some 100, some 0]`; the value
100 is attested within bounds by the theorem. -/
theorem rsi_values_within_0_100_witness :
    (1 ≤ 1) ∧ (1 + 1 ≤ ([1, 2, 1] : List ℚ).length) ∧
    (Chart.rsi [1, 2, 1] 1 = [none, some 100, some 0]) ∧
    (some (100 : ℚ) ∈ Chart.rsi [1, 2, 1] 1) ∧
    (0 ≤ (100 : ℚ) ∧ (100 : ℚ) ≤ 100) := by
  have heval : Chart.rsi [1, 2, 1] 1 = [none, some 100, some 0] := by
    norm_num [Chart.rsi, Chart.rsiLoop, Chart.changes]
  have hmem : some (100 : ℚ) ∈ Chart.rsi [1, 2, 1] 1 := by
    rw [heval]
    simp
  exact ⟨le_refl 1, by norm_num, heval, hmem,
    rsi_values_within_0_100 [1, 2, 1] 1 100 (le_refl 1) (by norm_num) hmem⟩

/-- Indexed-map characterization of `List.map` over `List.range`. -/
theorem range_map_get?D {α β : Type} (l : List α) (f : α → β) (d : β) :
    (List.range l.length).map (fun i => ((l.get? i).map f).getD d) = l.map f := by
  induction l with
  | nil => simp
  | cons a t ih =>
    rw [List.length_cons, List.range_succ_eq_map, List.map_cons, List.map_map,
      List.map_cons]
    exact congrArg (f a :: ·) ih

/-- Model of `buildLineData` preserves the candle times, one point per candle. -/
theorem buildLineData_times (candles : List Chart.Candle) (values : List (Option ℚ)) :
    (Chart.buildLineData candles values).map Chart.LinePoint.time =
      candles.map Chart.Candle.time := by
  unfold Chart.buildLineData
  rw [List.map_map]
  exact range_map_get?D candles Chart.Candle.time 0

/-- Model of `buildHistogramData` preserves the candle times, one point per candle. -/
theorem buildHistogramData_times (candles : List Chart.Candle)
    (values : List (Option ℚ)) (cu cd : String) :
    (Chart.buildHistogramData candles values cu cd).map Chart.HistPoint.time =
      candles.map Chart.Candle.time := by
  unfold Chart.buildHistogramData
  rw [List.map_map]
  calc (List.range candles.length).map _
      = (List.range candles.length).map
          (fun i => (((candles.get? i).map Chart.Candle.time).getD 0)) := by
        apply List.map_congr_left
        intro i _
        simp only [Function.comp_apply]
        cases h : (values.get? i).join <;> rfl
    _ = candles.map Chart.Candle.time := range_map_get?D candles Chart.Candle.time 0

/-- C9: for every supported indicator id, every result line and histogram of
`calculateIndicator` carries exactly one point per input candle, in input
order, with that candle's time; and the data builders emit a whitespace
point (no value) exactly at the indices whose computed value is null (`NaN`
and non-finite values do not arise over `ℚ`). -/
theorem indicator_series_candle_alignment :
    (∀ (sqrtA : ℚ → ℚ) (ind : Chart.BuiltInIndicator) (candles : List Chart.Candle)
       (inputs : Chart.Inputs) (r : Chart.IndicatorResult),
       Chart.calculateIndicator sqrtA ind candles inputs = some r →
       (∀ l ∈ r.lines, l.data.map Chart.LinePoint.time =
         candles.map Chart.Candle.time) ∧
       (∀ h ∈ r.histograms, h.data.map Chart.HistPoint.time =
         candles.map Chart.Candle.time)) ∧
    (∀ (candles : List Chart.Candle) (values : List (Option ℚ)),
      (Chart.buildLineData candles values).map Chart.LinePoint.value =
        (List.range candles.length).map (fun i => (values.get? i).join)) ∧
    (∀ (candles : List Chart.Candle) (values : List (Option ℚ)) (cu cd : String),
      (Chart.buildHistogramData candles values cu cd).map Chart.HistPoint.value =
        (List.range candles.length).map (fun i => (values.get? i).join)) := by
  refine ⟨?_, ?_, ?_⟩
  · intro sqrtA ind candles inputs r h
    unfold Chart.calculateIndicator Chart.indicatorCalculators at h
    split_ifs at h
    · replace h := Option.some.inj h
      subst h
      refine ⟨fun l hl => ?_, fun z hz => ?_⟩
      · simp only [Chart.calculateSMA, List.mem_cons, List.not_mem_nil, or_false] at hl
        subst hl
        exact buildLineData_times _ _
      · simp only [Chart.calculateSMA, List.not_mem_nil] at hz
    · replace h := Option.some.inj h
      subst h
      refine ⟨fun l hl => ?_, fun z hz => ?_⟩
      · simp only [Chart.calculateEMA, List.mem_cons, List.not_mem_nil, or_false] at hl
        subst hl
        exact buildLineData_times _ _
      · simp only [Chart.calculateEMA, List.not_mem_nil] at hz
    · replace h := Option.some.inj h
      subst h
      refine ⟨fun l hl => ?_, fun z hz => ?_⟩
      · simp only [Chart.calculateEMACross, List.mem_cons, List.not_mem_nil,
          or_false] at hl
        rcases hl with rfl | rfl <;> exact buildLineData_times _ _
      · simp only [Chart.calculateEMACross, List.not_mem_nil] at hz
    · replace h := Option.some.inj h
      subst h
      refine ⟨fun l hl => ?_, fun z hz => ?_⟩
      · simp only [Chart.calculateRSI, List.mem_cons, List.not_mem_nil, or_false] at hl
        subst hl
        exact buildLineData_times _ _
      · simp only [Chart.calculateRSI, List.not_mem_nil] at hz
    · replace h := Option.some.inj h
      subst h
      refine ⟨fun l hl => ?_, fun z hz => ?_⟩
      · simp only [Chart.calculateMACD, List.mem_cons, List.not_mem_nil,
          or_false] at hl
        rcases hl with rfl | rfl <;> exact buildLineData_times _ _
      · simp only [Chart.calculateMACD, List.mem_cons, List.not_mem_nil,
          or_false] at hz
        subst hz
        exact buildHistogramData_times _ _ _ _
    · replace h := Option.some.inj h
      subst h
      refine ⟨fun l hl => ?_, fun z hz => ?_⟩
      · simp only [Chart.calculateBB, List.mem_cons, List.not_mem_nil, or_false] at hl
        rcases hl with rfl | rfl | rfl <;> exact buildLineData_times _ _
      · simp only [Chart.calculateBB, List.not_mem_nil] at hz
    · replace h := Option.some.inj h
      subst h
      refine ⟨fun l hl => ?_, fun z hz => ?_⟩
      · simp only [Chart.calculateATR, List.mem_cons, List.not_mem_nil, or_false] at hl
        subst hl
        exact buildLineData_times _ _
      · simp only [Chart.calculateATR, List.not_mem_nil] at hz
    · replace h := Option.some.inj h
      subst h
      refine ⟨fun l hl => ?_, fun z hz => ?_⟩
      · simp only [Chart.calculateVolumeSMA, List.mem_cons, List.not_mem_nil,
          or_false] at hl
        subst hl
        exact buildLineData_times _ _
      · simp only [Chart.calculateVolumeSMA, List.mem_cons, List.not_mem_nil,
          or_false] at hz
        subst hz
        rw [List.map_map]
        rfl
  · intro candles values
    unfold Chart.buildLineData
    rw [List.map_map]
    rfl
  · intro candles values cu cd
    unfold Chart.buildHistogramData
    rw [List.map_map]
    apply List.map_congr_left
    intro i _
    simp only [Function.comp_apply]
    cases h : (values.get? i).join <;> rfl

/-- Witness for C9 at the `rsi` built-in on one candle. -/
theorem indicator_series_candle_alignment_witness :
    (Chart.calculateIndicator Fix.sqrt0
      { id := "rsi", name := "Relative Strength Index", category := "oscillator"
        overlay := false } Fix.candles1 Fix.inputs1 =
      some (Chart.calculateRSI Fix.candles1 Fix.inputs1)) ∧
    ((∀ l ∈ (Chart.calculateRSI Fix.candles1 Fix.inputs1).lines,
        l.data.map Chart.LinePoint.time = Fix.candles1.map Chart.Candle.time) ∧
     (∀ h ∈ (Chart.calculateRSI Fix.candles1 Fix.inputs1).histograms,
        h.data.map Chart.HistPoint.time = Fix.candles1.map Chart.Candle.time)) := by
  have heq : Chart.calculateIndicator Fix.sqrt0
      { id := "rsi", name := "Relative Strength Index", category := "oscillator"
        overlay := false } Fix.candles1 Fix.inputs1 =
      some (Chart.calculateRSI Fix.candles1 Fix.inputs1) := by
    simp [Chart.calculateIndicator, Chart.indicatorCalculators]
  exact ⟨heq, indicator_series_candle_alignment.1 Fix.sqrt0 _ Fix.candles1
    Fix.inputs1 _ heq⟩

/-- Model of `Math.round` differs from its argument by at most one half. -/
theorem jsRound_err (x : ℚ) : |((Forecast.jsRound x : ℤ) : ℚ) - x| ≤ 1 / 2 := by
  unfold Forecast.jsRound
  rw [abs_le]
  constructor
  · have h := Int.lt_floor_add_one (x + 1 / 2)
    push_cast at h ⊢
    linarith
  · have h := Int.floor_le (x + 1 / 2)
    push_cast at h ⊢
    linarith

/-- Rounding to 4 decimal places moves a value by at most `1/20000`. -/
theorem jsRound4_err (x : ℚ) :
    |((Forecast.jsRound (x * 10000) : ℤ) : ℚ) / 10000 - x| ≤ 1 / 20000 := by
  have h := jsRound_err (x * 10000)
  rw [abs_le] at h ⊢
  constructor <;> linarith

/-- The momentum factor preserves the total of the triple. -/
theorem momentumStep_sum (roc thr : ℚ) (t : ℚ × ℚ × ℚ) :
    (Forecast.momentumStep roc thr t).1 + (Forecast.momentumStep roc thr t).2.1 +
      (Forecast.momentumStep roc thr t).2.2 = t.1 + t.2.1 + t.2.2 := by
  unfold Forecast.momentumStep
  split_ifs <;> (try dsimp only) <;> ring

/-- The volatility factor preserves the total of the triple. -/
theorem volatilityStep_sum (vol volLow volHigh ts : ℚ) (t : ℚ × ℚ × ℚ) :
    (Forecast.volatilityStep vol volLow volHigh ts t).1 +
      (Forecast.volatilityStep vol volLow volHigh ts t).2.1 +
      (Forecast.volatilityStep vol volLow volHigh ts t).2.2 =
      t.1 + t.2.1 + t.2.2 := by
  unfold Forecast.volatilityStep
  split_ifs <;> (try dsimp only) <;> ring

/-- The volume-surge factor preserves the total of the triple. -/
theorem volumeStep_sum (vr ts : ℚ) (t : ℚ × ℚ × ℚ) :
    (Forecast.volumeStep vr ts t).1 + (Forecast.volumeStep vr ts t).2.1 +
      (Forecast.volumeStep vr ts t).2.2 = t.1 + t.2.1 + t.2.2 := by
  unfold Forecast.volumeStep
  split_ifs <;> (try dsimp only) <;> ring

/-- The correlation factor can only increase the total of the triple when
the correlation adjustment is nonnegative. -/
theorem correlationStep_sum_ge (avgCorr corrAdj goldRoc : ℚ) (t : ℚ × ℚ × ℚ)
    (h : 0 ≤ corrAdj) :
    t.1 + t.2.1 + t.2.2 ≤
      (Forecast.correlationStep avgCorr corrAdj goldRoc t).1 +
        (Forecast.correlationStep avgCorr corrAdj goldRoc t).2.1 +
        (Forecast.correlationStep avgCorr corrAdj goldRoc t).2.2 := by
  unfold Forecast.correlationStep
  split_ifs <;> (try dsimp only) <;> linarith

/-- C8 (amended): whenever the effective correlation weight
`config.correlationWeight ?? 0.30` is nonnegative, the pre-normalization
total of the three branch weights in `generateForecast` is strictly
positive, so normalization applies, and the returned rounded probabilities
sum to 1 within `2e-4`. -/
theorem generateForecast_sum_of_nonneg_weight
    (indicators : Forecast.AggregatedIndicators)
    (correlations : Forecast.Correlations) (config : Forecast.VisionBotConfigP)
    (hw : 0 ≤ config.correlationWeight.getD (30 / 100)) :
    0 < Forecast.preTotal indicators correlations config ∧
    |(Forecast.generateForecast indicators correlations config).upward +
      (Forecast.generateForecast indicators correlations config).downward +
      (Forecast.generateForecast indicators correlations config).consolidation - 1| ≤
      2 / 10000 := by
  have hca : 0 ≤ config.correlationWeight.getD (30 / 100) * |correlations.avg_corr| :=
    mul_nonneg hw (abs_nonneg _)
  have htot : 0 < (Forecast.generateForecastPre indicators correlations config).1 +
      (Forecast.generateForecastPre indicators correlations config).2.1 +
      (Forecast.generateForecastPre indicators correlations config).2.2 := by
    unfold Forecast.generateForecastPre
    dsimp only
    have e1 := momentumStep_sum indicators.roc_24h
      (config.trendThreshold.getD (2 / 100)) (1 / 3, 1 / 3, 1 / 3)
    have e2 := volatilityStep_sum indicators.atr_pct
      (config.volatilityLow.getD (1 / 100)) (config.volatilityHigh.getD (5 / 100))
      indicators.trend_strength
      (Forecast.momentumStep indicators.roc_24h
        (config.trendThreshold.getD (2 / 100)) (1 / 3, 1 / 3, 1 / 3))
    have e3 := volumeStep_sum indicators.volumeRatio indicators.trend_strength
      (Forecast.volatilityStep indicators.atr_pct
        (config.volatilityLow.getD (1 / 100)) (config.volatilityHigh.getD (5 / 100))
        indicators.trend_strength
        (Forecast.momentumStep indicators.roc_24h
          (config.trendThreshold.getD (2 / 100)) (1 / 3, 1 / 3, 1 / 3)))
    have e4 := correlationStep_sum_ge correlations.avg_corr
      (config.correlationWeight.getD (30 / 100) * |correlations.avg_corr|)
      indicators.gold_roc
      (Forecast.volumeStep indicators.volumeRatio indicators.trend_strength
        (Forecast.volatilityStep indicators.atr_pct
          (config.volatilityLow.getD (1 / 100)) (config.volatilityHigh.getD (5 / 100))
          indicators.trend_strength
          (Forecast.momentumStep indicators.roc_24h
            (config.trendThreshold.getD (2 / 100)) (1 / 3, 1 / 3, 1 / 3)))) hca
    linarith
  refine ⟨htot, ?_⟩
  have hS : ((Forecast.generateForecastPre indicators correlations config).1 +
      (Forecast.generateForecastPre indicators correlations config).2.1 +
      (Forecast.generateForecastPre indicators correlations config).2.2) ≠ 0 :=
    ne_of_gt htot
  have hsum : (Forecast.generateForecastPre indicators correlations config).1 /
        ((Forecast.generateForecastPre indicators correlations config).1 +
         (Forecast.generateForecastPre indicators correlations config).2.1 +
         (Forecast.generateForecastPre indicators correlations config).2.2) +
      (Forecast.generateForecastPre indicators correlations config).2.1 /
        ((Forecast.generateForecastPre indicators correlations config).1 +
         (Forecast.generateForecastPre indicators correlations config).2.1 +
         (Forecast.generateForecastPre indicators correlations config).2.2) +
      (Forecast.generateForecastPre indicators correlations config).2.2 /
        ((Forecast.generateForecastPre indicators correlations config).1 +
         (Forecast.generateForecastPre indicators correlations config).2.1 +
         (Forecast.generateForecastPre indicators correlations config).2.2) = 1 := by
    rw [div_add_div_same, div_add_div_same]
    exact div_self hS
  unfold Forecast.generateForecast
  dsimp only
  rw [if_pos htot]
  dsimp only
  have h1 := jsRound4_err ((Forecast.generateForecastPre indicators correlations config).1 /
    ((Forecast.generateForecastPre indicators correlations config).1 +
     (Forecast.generateForecastPre indicators correlations config).2.1 +
     (Forecast.generateForecastPre indicators correlations config).2.2))
  have h2 := jsRound4_err ((Forecast.generateForecastPre indicators correlations config).2.1 /
    ((Forecast.generateForecastPre indicators correlations config).1 +
     (Forecast.generateForecastPre indicators correlations config).2.1 +
     (Forecast.generateForecastPre indicators correlations config).2.2))
  have h3 := jsRound4_err ((Forecast.generateForecastPre indicators correlations config).2.2 /
    ((Forecast.generateForecastPre indicators correlations config).1 +
     (Forecast.generateForecastPre indicators correlations config).2.1 +
     (Forecast.generateForecastPre indicators correlations config).2.2))
  rw [abs_le] at h1 h2 h3 ⊢
  constructor <;> linarith

/-- C8 (counterexample to the claim as stated): with `correlationWeight = -2`,
`avg_corr = 1`, `gold_roc = 1` and otherwise neutral indicators, the
pre-normalization total is `0` - not strictly positive - so normalization is
skipped and the rounded probabilities sum to `-1/10000`, far outside
`1 ± 2e-4`. -/
theorem generateForecast_total_not_positive :
    ¬ (0 < Forecast.preTotal Fix.aggX Fix.corrX Fix.cfgX) ∧
    (Forecast.generateForecast Fix.aggX Fix.corrX Fix.cfgX).upward +
      (Forecast.generateForecast Fix.aggX Fix.corrX Fix.cfgX).downward +
      (Forecast.generateForecast Fix.aggX Fix.corrX Fix.cfgX).consolidation =
      -(1 / 10000) := by
  have hpre : Forecast.generateForecastPre Fix.aggX Fix.corrX Fix.cfgX =
      (1 / 3 - 1, 1 / 3, 1 / 3) := by
    norm_num [Forecast.generateForecastPre, Forecast.momentumStep,
      Forecast.volatilityStep, Forecast.volumeStep, Forecast.correlationStep,
      Fix.aggX, Fix.corrX, Fix.cfgX]
  constructor
  · unfold Forecast.preTotal
    dsimp only
    rw [hpre]
    norm_num
  · unfold Forecast.generateForecast
    dsimp only
    rw [hpre]
    norm_num [Forecast.jsRound]

/-- Witness for the amended C8 at all-default config and neutral inputs. -/
theorem generateForecast_sum_of_nonneg_weight_witness :
    (0 ≤ Fix.cfgY.correlationWeight.getD (30 / 100)) ∧
    (0 < Forecast.preTotal Fix.aggY Fix.corrY Fix.cfgY ∧
     |(Forecast.generateForecast Fix.aggY Fix.corrY Fix.cfgY).upward +
       (Forecast.generateForecast Fix.aggY Fix.corrY Fix.cfgY).downward +
       (Forecast.generateForecast Fix.aggY Fix.corrY Fix.cfgY).consolidation - 1| ≤
       2 / 10000) :=
  ⟨by norm_num [Fix.cfgY],
   generateForecast_sum_of_nonneg_weight Fix.aggY Fix.corrY Fix.cfgY
     (by norm_num [Fix.cfgY])⟩
